import Mathlib

/-!
Verification of the fund-analyzer metrics and scoring engine.

This file is a shallow embedding, in Lean 4, of the TypeScript core of the
`fund-analyzer` repository:

* `src/scorers/fundScorer.ts` — category/tier classification, benchmark
  scoring, the market-wide and tier-relative scoring model;
* `src/backtest/calcHistoricalMetrics.ts` — point-in-time metrics,
  fund-data reconstruction at a simulated date, forward returns;
* `src/backtest/backtester.ts` — per-date backtest samples and quintile
  bucketing;
* `src/analyzers/calcRiskMetrics.ts` — window slicing;
* `src/analyzers/backtester.ts` (holdings module) — HHI concentration;
* `src/analyzers/riskAnalyzer.ts` — historical VaR / CVaR.

Modelling conventions:

* JavaScript numbers are modelled by `JNum` (a rational, `NaN`, `+Infinity`
  or `-Infinity`) wherever non-finite values can actually reach the
  operation, with JS comparison/arithmetic semantics (`NaN` compares false
  with everything, propagates through arithmetic, `Math.max`/`Math.min`
  return `NaN` when an argument is `NaN`).  Where the source guarantees a
  finite value (benchmark tables, weights, values already coerced through
  `safeNum`, NAV data points), plain `ℚ` is used.
* `Math.round` is `mround` (round half toward +∞, as in JS).
* `Math.sqrt` and fractional `Math.pow` are not rational; the functions
  that use them take them as explicit function parameters (`sq`, `pw`).
  Every theorem below holds for arbitrary such parameters.
* JS `Array.prototype.sort` with a numeric comparator is modelled by the
  stable `List.insertionSort`.
* JS timestamps (`Date.getTime()`) are rationals (milliseconds).
-/

/-- JS number: a finite rational, NaN, or a signed infinity. -/
inductive JNum where
  | num (q : ℚ)
  | nan
  | inf
  | ninf
deriving DecidableEq

/-- Number.isFinite. -/
def JNum.isFinite : JNum → Bool
  | .num _ => true
  | _ => false

/-- JS strict less-than (`<`): false whenever either side is NaN. -/
def jlt : JNum → JNum → Bool
  | .nan, _ => false
  | _, .nan => false
  | .num a, .num b => decide (a < b)
  | .num _, .inf => true
  | .num _, .ninf => false
  | .inf, _ => false
  | .ninf, .num _ => true
  | .ninf, .inf => true
  | .ninf, .ninf => false

/-- JS less-or-equal (`<=`): false whenever either side is NaN. -/
def jle : JNum → JNum → Bool
  | .nan, _ => false
  | _, .nan => false
  | .num a, .num b => decide (a ≤ b)
  | .num _, .inf => true
  | .num _, .ninf => false
  | .inf, .inf => true
  | .inf, _ => false
  | .ninf, _ => true

/-- JS greater-than (`>`). -/
def jgt (a b : JNum) : Bool := jlt b a

/-- JS greater-or-equal (`>=`). -/
def jge (a b : JNum) : Bool := jle b a

/-- JS negation. -/
def jneg : JNum → JNum
  | .num a => .num (-a)
  | .nan => .nan
  | .inf => .ninf
  | .ninf => .inf

/-- JS addition with NaN/Infinity propagation. -/
def jadd : JNum → JNum → JNum
  | .nan, _ => .nan
  | _, .nan => .nan
  | .num a, .num b => .num (a + b)
  | .num _, .inf => .inf
  | .inf, .num _ => .inf
  | .inf, .inf => .inf
  | .num _, .ninf => .ninf
  | .ninf, .num _ => .ninf
  | .ninf, .ninf => .ninf
  | .inf, .ninf => .nan
  | .ninf, .inf => .nan

/-- JS subtraction. -/
def jsub (a b : JNum) : JNum := jadd a (jneg b)

/-- JS multiplication with NaN/Infinity propagation (0 × ∞ = NaN). -/
def jmul : JNum → JNum → JNum
  | .nan, _ => .nan
  | _, .nan => .nan
  | .num a, .num b => .num (a * b)
  | .num a, .inf => if 0 < a then .inf else if a < 0 then .ninf else .nan
  | .inf, .num a => if 0 < a then .inf else if a < 0 then .ninf else .nan
  | .num a, .ninf => if 0 < a then .ninf else if a < 0 then .inf else .nan
  | .ninf, .num a => if 0 < a then .ninf else if a < 0 then .inf else .nan
  | .inf, .inf => .inf
  | .inf, .ninf => .ninf
  | .ninf, .inf => .ninf
  | .ninf, .ninf => .inf

/-- JS division (finite/0 gives a signed infinity, 0/0 gives NaN; ℚ has no
negative zero, so 0 behaves as +0 as divisor). -/
def jdiv : JNum → JNum → JNum
  | .nan, _ => .nan
  | _, .nan => .nan
  | .num a, .num b =>
      if b = 0 then (if a = 0 then .nan else if 0 < a then .inf else .ninf)
      else .num (a / b)
  | .inf, .num b => if 0 ≤ b then .inf else .ninf
  | .ninf, .num b => if 0 ≤ b then .ninf else .inf
  | .num _, .inf => .num 0
  | .num _, .ninf => .num 0
  | .inf, .inf => .nan
  | .inf, .ninf => .nan
  | .ninf, .inf => .nan
  | .ninf, .ninf => .nan

/-- JS Math.max of two numbers: NaN if either argument is NaN. -/
def jmax : JNum → JNum → JNum
  | .nan, _ => .nan
  | _, .nan => .nan
  | .num a, .num b => .num (max a b)
  | .inf, _ => .inf
  | _, .inf => .inf
  | .ninf, x => x
  | x, .ninf => x

/-- JS Math.min of two numbers: NaN if either argument is NaN. -/
def jmin : JNum → JNum → JNum
  | .nan, _ => .nan
  | _, .nan => .nan
  | .num a, .num b => .num (min a b)
  | .ninf, _ => .ninf
  | _, .ninf => .ninf
  | .inf, x => x
  | x, .inf => x

/-- JS Math.round on a finite value: round half toward +∞. -/
def mround (q : ℚ) : ℚ := ((⌊q + 1/2⌋ : ℤ) : ℚ)

/-- Round to 1 decimal: `Math.round(q * 10) / 10`. -/
def round1q (q : ℚ) : ℚ := mround (q * 10) / 10

/-- Round to 2 decimals: `Math.round(q * 100) / 100`. -/
def round2q (q : ℚ) : ℚ := mround (q * 100) / 100

/-- Math.round(x * 10) / 10 lifted to JS numbers (Math.round maps NaN to
NaN and preserves infinities). -/
def jround1 : JNum → JNum
  | .num q => .num (round1q q)
  | .nan => .nan
  | .inf => .inf
  | .ninf => .ninf

/-- Math.round(x * 100) / 100 lifted to JS numbers. -/
def jround2 : JNum → JNum
  | .num q => .num (round2q q)
  | .nan => .nan
  | .inf => .inf
  | .ninf => .ninf

/-- fundScorer.ts `safeNum`: NaN/Infinity become the fallback 0 (every call
site uses the default fallback). -/
def safeNum : JNum → ℚ
  | .num q => q
  | _ => 0

/-- JS `x || d` for a finite number `x` (0 is falsy). -/
def orDefault (x d : ℚ) : ℚ := if x = 0 then d else x

/-! ## Data model (src/types/fund.ts) -/

/-- fund.ts `FundCategory`. -/
inductive FundCategory where
  | bond
  | balanced
  | equity
deriving DecidableEq

/-- fund.ts `RiskTier` (5 ordered levels). -/
inductive RiskTier where
  | VERY_LOW
  | LOW
  | MEDIUM
  | MEDIUM_HIGH
  | HIGH
deriving DecidableEq

/-- Index of a tier in `tierOrder = [VERY_LOW, LOW, MEDIUM, MEDIUM_HIGH, HIGH]`
(fundScorer.ts line 49), used for the max-severity conflict resolution. -/
def tierIdx : RiskTier → ℕ
  | .VERY_LOW => 0
  | .LOW => 1
  | .MEDIUM => 2
  | .MEDIUM_HIGH => 3
  | .HIGH => 4

/-- fund.ts `TierBenchmark`. -/
structure TierBenchmark where
  sharpeBenchmark : ℚ
  returnBenchmark : ℚ
  drawdownBenchmark : ℚ
deriving DecidableEq

/-- fund.ts `FundBasicInfo`. -/
structure FundBasicInfo where
  code : String
  name : String
  type : String
  establishDate : String
deriving DecidableEq

/-- fund.ts `PeriodRiskMetrics`; fields are JS numbers. -/
structure PeriodRiskMetrics where
  sharpeRatio : JNum
  maxDrawdown : JNum
  volatility : JNum
  sortinoRatio : JNum
  calmarRatio : JNum
deriving DecidableEq

/-- fund.ts `PeriodRiskBreakdown` (`year1`/`year3` nullable, `all` present). -/
structure PeriodRiskBreakdown where
  year1 : Option PeriodRiskMetrics
  year3 : Option PeriodRiskMetrics
  all : PeriodRiskMetrics
deriving DecidableEq

/-- fund.ts `FundPerformance`. -/
structure FundPerformance where
  returnYear1 : JNum
  returnYear3 : JNum
  sharpeRatio : JNum
  maxDrawdown : JNum
  sortinoRatio : JNum
  volatility : JNum
  riskByPeriod : PeriodRiskBreakdown
deriving DecidableEq

/-- fund.ts `FundMeta`. -/
structure FundMeta where
  morningstarRating : JNum
  categoryRankPercent : JNum
  fundSize : JNum
  managerYears : JNum
  totalFeeRate : JNum
deriving DecidableEq

/-- fund.ts `FundData`. -/
structure FundData where
  basic : FundBasicInfo
  performance : FundPerformance
  meta : FundMeta
deriving DecidableEq

/-- fund.ts `FundScoreDetail`; `maxScore` is always a finite constant in the
source, `score` is a JS number. -/
structure FundScoreDetail where
  item : String
  score : JNum
  maxScore : ℚ
deriving DecidableEq

/-- Result record of fundScorer.ts `scoreFundByTier`. -/
structure TierScoreResult where
  tierScore : JNum
  tierDetails : List FundScoreDetail
deriving DecidableEq

/-- fund.ts `FundScore` (fields of the `scoreFund` result record;
`returnScore`, `riskScore` and `momentumPenalty` are finite by construction
in the source — sums/rounds of already-coerced values — hence typed `ℚ`). -/
structure FundScore where
  returnScore : ℚ
  riskScore : ℚ
  overallScore : JNum
  totalScore : JNum
  momentumPenalty : ℚ
  details : List FundScoreDetail
  riskTier : RiskTier
  tierScore : JNum
  marketScore : JNum
  tierDetails : List FundScoreDetail
deriving DecidableEq

/-! ## String pattern matching

The classifier regexes in fundScorer.ts are alternations of literal
substrings (plus one `A.*B` pattern); they are modelled by contiguous
substring search over the character list of the type text. -/

/-- Check that `pat` is a leading segment of `s`. -/
def begMatch : List Char → List Char → Bool
  | [], _ => true
  | _ :: _, [] => false
  | p :: ps, c :: cs => p == c && begMatch ps cs

/-- Check that `pat` occurs contiguously somewhere in `s`
(JS `/pat/.test(s)` for a literal pattern). -/
def hasSeg (pat s : List Char) : Bool :=
  match s with
  | [] => pat.isEmpty
  | _ :: cs => begMatch pat s || hasSeg pat cs

/-- Literal-regex test on strings. -/
def strHas (s pat : String) : Bool := hasSeg pat.data s.data

/-- JS `/p1.*p2/.test(s)`: some occurrence of `p1` followed by `p2` after it. -/
def strHasThen (s p1 p2 : String) : Bool := go p1.data p2.data s.data
where
  /-- Scan every suffix of `s` for `p1` followed by `p2`. -/
  go (q1 q2 : List Char) : List Char → Bool
    | [] => false
    | c :: cs => (begMatch q1 (c :: cs) && hasSeg q2 ((c :: cs).drop q1.length)) || go q1 q2 cs

/-! ## Classification (fundScorer.ts) -/

/-- fundScorer.ts `classifyFund`: ordered keyword patterns, first match wins. -/
def classifyFund (type : String) : FundCategory :=
  if strHas type "债券" || strHas type "纯债" || strHas type "短债" ||
     strHas type "中短债" || strHas type "长债" || strHas type "偏债" then .bond
  else if strHas type "股票" || strHas type "偏股" || strHas type "指数" then .equity
  else .balanced

/-- fundScorer.ts `classifyRiskTier`: tier from type text and tier from
volatility (`Number.isFinite` coercion as in the source), conflict resolved
by taking the larger index in `tierOrder` (max severity). -/
def classifyRiskTier (fundType : String) (volatility : JNum) : RiskTier :=
  let typeTier : RiskTier :=
    if strHas fundType "货币" || strHas fundType "超短债" then .VERY_LOW
    else if strHas fundType "纯债" || strHas fundType "短债" || strHas fundType "中短债" ||
            strHas fundType "长债" || strHasThen fundType "债券" "一级" then .LOW
    else if strHas fundType "偏债" || strHas fundType "债券" || strHas fundType "FOF" then .MEDIUM
    else if strHas fundType "偏股混合" || strHas fundType "平衡" || strHas fundType "灵活配置" then .MEDIUM_HIGH
    else if strHas fundType "股票" || strHas fundType "指数" || strHas fundType "偏股" then .HIGH
    else .MEDIUM
  let vol : ℚ := if volatility.isFinite then safeNum volatility else 0
  let volTier : RiskTier :=
    if vol < 0.5 then .VERY_LOW
    else if vol < 3 then .LOW
    else if vol < 10 then .MEDIUM
    else if vol < 20 then .MEDIUM_HIGH
    else .HIGH
  if tierIdx typeTier ≤ tierIdx volTier then volTier else typeTier

/-! ## Benchmark tables (fundScorer.ts) -/

/-- Four-breakpoint benchmark row. -/
structure Benchmark where
  full : ℚ
  high : ℚ
  mid : ℚ
  low : ℚ
deriving DecidableEq

/-- fundScorer.ts `TIER_BENCHMARKS`. -/
def TIER_BENCHMARKS : RiskTier → TierBenchmark
  | .VERY_LOW => ⟨1.0, 2.5, 0.1⟩
  | .LOW => ⟨2.0, 6, 1⟩
  | .MEDIUM => ⟨1.5, 15, 5⟩
  | .MEDIUM_HIGH => ⟨1.2, 25, 15⟩
  | .HIGH => ⟨1.0, 35, 20⟩

/-- fundScorer.ts `RETURN_YEAR1_BENCHMARKS`. -/
def RETURN_YEAR1_BENCHMARKS : FundCategory → Benchmark
  | .bond => ⟨8, 5, 3, 0⟩
  | .balanced => ⟨20, 12, 6, 0⟩
  | .equity => ⟨30, 20, 10, 0⟩

/-- fundScorer.ts `RETURN_YEAR3_BENCHMARKS`. -/
def RETURN_YEAR3_BENCHMARKS : FundCategory → Benchmark
  | .bond => ⟨20, 12, 6, 0⟩
  | .balanced => ⟨50, 30, 15, 0⟩
  | .equity => ⟨80, 50, 30, 0⟩

/-- fundScorer.ts `SHARPE_BENCHMARKS`. -/
def SHARPE_BENCHMARKS : FundCategory → Benchmark
  | .bond => ⟨1.5, 1.0, 0.7, 0.3⟩
  | .balanced => ⟨2.0, 1.5, 1.0, 0.5⟩
  | .equity => ⟨2.0, 1.5, 1.0, 0.5⟩

/-- fundScorer.ts `DRAWDOWN_BENCHMARKS`. -/
def DRAWDOWN_BENCHMARKS : FundCategory → Benchmark
  | .bond => ⟨3, 5, 10, 15⟩
  | .balanced => ⟨10, 20, 30, 40⟩
  | .equity => ⟨15, 25, 35, 45⟩

/-- fundScorer.ts `SORTINO_BENCHMARKS`. -/
def SORTINO_BENCHMARKS : FundCategory → Benchmark
  | .bond => ⟨2.0, 1.5, 1.0, 0.5⟩
  | .balanced => ⟨2.5, 2.0, 1.5, 1.0⟩
  | .equity => ⟨2.5, 2.0, 1.5, 1.0⟩

/-- fundScorer.ts `VOLATILITY_BENCHMARKS`. -/
def VOLATILITY_BENCHMARKS : FundCategory → Benchmark
  | .bond => ⟨3, 5, 8, 12⟩
  | .balanced => ⟨10, 15, 20, 25⟩
  | .equity => ⟨15, 20, 25, 30⟩

/-- fundScorer.ts `CALMAR_BENCHMARKS`. -/
def CALMAR_BENCHMARKS : FundCategory → Benchmark
  | .bond => ⟨2.0, 1.5, 1.0, 0.5⟩
  | .balanced => ⟨3.0, 2.0, 1.0, 0.5⟩
  | .equity => ⟨3.0, 2.0, 1.0, 0.5⟩

/-! ## Scoring functions (fundScorer.ts) -/

/-- fundScorer.ts `scoreHigherBetter`: the value is coerced through
`safeNum` before any benchmark comparison; tier ratios from `SCORE_TIER`
(HIGH 0.8, MID_HIGHER 0.6, LOW 0.33, MIN 0.2). -/
def scoreHigherBetter (value : JNum) (b : Benchmark) (maxScore : ℚ) : ℚ :=
  let v := safeNum value
  if b.full ≤ v then maxScore
  else if b.high ≤ v then maxScore * 0.8
  else if b.mid ≤ v then maxScore * 0.6
  else if b.low ≤ v then maxScore * 0.33
  else max 0 (maxScore * 0.2 * (v / orDefault b.low 1))

/-- fundScorer.ts `scoreLowerBetter` (MID_LOWER 0.53, FLOOR 0.13). -/
def scoreLowerBetter (value : JNum) (b : Benchmark) (maxScore : ℚ) : ℚ :=
  let v := safeNum value
  if v ≤ b.full then maxScore
  else if v ≤ b.high then maxScore * 0.8
  else if v ≤ b.mid then maxScore * 0.53
  else if v ≤ b.low then maxScore * 0.33
  else max (maxScore * 0.13) (maxScore * 0.33 * (b.low / orDefault v 1))

/-- fundScorer.ts `scoreMorningstar`: `Math.min(maxScore, Math.max(0,
rating * (maxScore / 5)))`; the rating is *not* coerced, so JS min/max/mul
semantics apply. -/
def scoreMorningstar (rating : JNum) (maxScore : ℚ) : JNum :=
  jmin (.num maxScore) (jmax (.num 0) (jmul rating (.num (maxScore / 5))))

/-- fundScorer.ts `scoreFundSize`: raw JS comparisons on the (possibly
non-finite) size; every branch returns a finite multiple of `maxScore`. -/
def scoreFundSize (size : JNum) (maxScore : ℚ) : ℚ :=
  if jge size (.num 2) && jle size (.num 100) then maxScore
  else if jgt size (.num 100) && jle size (.num 300) then maxScore * 0.8
  else if jge size (.num 1) && jlt size (.num 2) then maxScore * 0.6
  else if jgt size (.num 300) then maxScore * 0.4
  else maxScore * 0.2

/-- fundScorer.ts `scoreManagerYears`. -/
def scoreManagerYears (years : JNum) (maxScore : ℚ) : ℚ :=
  if jge years (.num 7) then maxScore
  else if jge years (.num 5) then maxScore * 0.8
  else if jge years (.num 3) then maxScore * 0.6
  else if jge years (.num 1) then maxScore * 0.4
  else maxScore * 0.2

/-- fundScorer.ts `scoreFeeRate`. -/
def scoreFeeRate (rate : JNum) (maxScore : ℚ) : ℚ :=
  if jle rate (.num 0.8) then maxScore
  else if jle rate (.num 1.2) then maxScore * 0.83
  else if jle rate (.num 1.5) then maxScore * 0.67
  else if jle rate (.num 2.0) then maxScore * 0.33
  else maxScore * 0.17

/-- fundScorer.ts `SCORE_WEIGHT` (market weight budget, sums to 100). -/
def W_SHARPE : ℚ := 12
/-- SCORE_WEIGHT.SORTINO. -/
def W_SORTINO : ℚ := 5
/-- SCORE_WEIGHT.RETURN_YEAR1. -/
def W_RETURN_YEAR1 : ℚ := 8
/-- SCORE_WEIGHT.RETURN_YEAR3. -/
def W_RETURN_YEAR3 : ℚ := 10
/-- SCORE_WEIGHT.CALMAR. -/
def W_CALMAR : ℚ := 10
/-- SCORE_WEIGHT.MAX_DRAWDOWN. -/
def W_MAX_DRAWDOWN : ℚ := 18
/-- SCORE_WEIGHT.VOLATILITY. -/
def W_VOLATILITY : ℚ := 7
/-- SCORE_WEIGHT.MORNINGSTAR. -/
def W_MORNINGSTAR : ℚ := 8
/-- SCORE_WEIGHT.FUND_SIZE. -/
def W_FUND_SIZE : ℚ := 8
/-- SCORE_WEIGHT.MANAGER_YEARS. -/
def W_MANAGER_YEARS : ℚ := 8
/-- SCORE_WEIGHT.FEE_RATE. -/
def W_FEE_RATE : ℚ := 6

/-- fundScorer.ts `PERIOD_WEIGHT` = { YEAR1: 0.4, YEAR3: 0.3, ALL: 0.3 }. -/
def PERIOD_WEIGHT_YEAR1 : ℚ := 0.4
/-- PERIOD_WEIGHT.YEAR3. -/
def PERIOD_WEIGHT_YEAR3 : ℚ := 0.3
/-- PERIOD_WEIGHT.ALL. -/
def PERIOD_WEIGHT_ALL : ℚ := 0.3

/-- fundScorer.ts `weightedPeriodScore`: accumulate present periods
(skipping `null`), then divide by the accumulated weight, or return 0 when
no period is present. -/
def weightedPeriodScore (periods : List (Option PeriodRiskMetrics × ℚ))
    (scoreFn : PeriodRiskMetrics → ℚ) : ℚ :=
  let acc := periods.foldl
    (fun (acc : ℚ × ℚ) pw =>
      match pw.1 with
      | none => acc
      | some m => (acc.1 + pw.2, acc.2 + scoreFn m * pw.2))
    (0, 0)
  if 0 < acc.1 then acc.2 / acc.1 else 0

/-- fundScorer.ts `scoreFundByTier`: tier-relative scoring pass.  The
tier-benchmark table is converted to `Benchmark` rows, the same
`weightedPeriodScore` machinery is used, and — note — no momentum penalty
is applied anywhere in this function. -/
def scoreFundByTier (data : FundData) (tier : RiskTier) : TierScoreResult :=
  let p := data.performance
  let m := data.meta
  let rbp := p.riskByPeriod
  let tb := TIER_BENCHMARKS tier
  let periodWeights : List (Option PeriodRiskMetrics × ℚ) :=
    [(rbp.year1, PERIOD_WEIGHT_YEAR1), (rbp.year3, PERIOD_WEIGHT_YEAR3),
     (some rbp.all, PERIOD_WEIGHT_ALL)]
  let sharpeBm : Benchmark :=
    ⟨tb.sharpeBenchmark, tb.sharpeBenchmark * 0.7, tb.sharpeBenchmark * 0.4,
     tb.sharpeBenchmark * 0.15⟩
  let returnBm : Benchmark :=
    ⟨tb.returnBenchmark, tb.returnBenchmark * 0.7, tb.returnBenchmark * 0.4, 0⟩
  let drawdownBm : Benchmark :=
    ⟨tb.drawdownBenchmark, tb.drawdownBenchmark * 2, tb.drawdownBenchmark * 4,
     tb.drawdownBenchmark * 6⟩
  let sharpeVal := weightedPeriodScore periodWeights
    (fun m => scoreHigherBetter m.sharpeRatio sharpeBm W_SHARPE)
  let sortinoVal := weightedPeriodScore periodWeights
    (fun m => scoreHigherBetter m.sortinoRatio sharpeBm W_SORTINO)
  let y1Val := scoreHigherBetter p.returnYear1 returnBm W_RETURN_YEAR1
  let y3Val := scoreHigherBetter p.returnYear3
    ⟨returnBm.full * 3, returnBm.high * 3, returnBm.mid * 3, 0⟩ W_RETURN_YEAR3
  let calmarVal := weightedPeriodScore periodWeights
    (fun m => scoreHigherBetter m.calmarRatio sharpeBm W_CALMAR)
  let ddVal := weightedPeriodScore periodWeights
    (fun m => scoreLowerBetter m.maxDrawdown drawdownBm W_MAX_DRAWDOWN)
  let volVal := weightedPeriodScore periodWeights
    (fun m => scoreLowerBetter m.volatility drawdownBm W_VOLATILITY)
  let hasMorningstar := jgt m.morningstarRating (.num 0)
  let scale : ℚ := if hasMorningstar then 1 else 100 / (100 - W_MORNINGSTAR)
  let msVal : JNum :=
    if hasMorningstar then scoreMorningstar m.morningstarRating W_MORNINGSTAR
    else .num 0
  let sizeVal := scoreFundSize m.fundSize (W_FUND_SIZE * scale)
  let mgrVal := scoreManagerYears m.managerYears (W_MANAGER_YEARS * scale)
  let feeVal := scoreFeeRate m.totalFeeRate (W_FEE_RATE * scale)
  let scaledMax := fun (base : ℚ) => mround (base * scale * 10) / 10
  let tierDetailsRaw : List FundScoreDetail :=
    [⟨"夏普比率", .num sharpeVal, W_SHARPE⟩,
     ⟨"索提诺比率", .num sortinoVal, W_SORTINO⟩,
     ⟨"近1年收益", .num y1Val, W_RETURN_YEAR1⟩,
     ⟨"近3年收益", .num y3Val, W_RETURN_YEAR3⟩,
     ⟨"卡玛比率", .num calmarVal, W_CALMAR⟩,
     ⟨"最大回撤", .num ddVal, W_MAX_DRAWDOWN⟩,
     ⟨"波动率", .num volVal, W_VOLATILITY⟩] ++
    (if hasMorningstar then [⟨"晨星评级", msVal, W_MORNINGSTAR⟩] else []) ++
    [⟨"基金规模", .num sizeVal, scaledMax W_FUND_SIZE⟩,
     ⟨"经理年限", .num mgrVal, scaledMax W_MANAGER_YEARS⟩,
     ⟨"费率", .num feeVal, scaledMax W_FEE_RATE⟩]
  let tierDetails := tierDetailsRaw.map (fun d => { d with score := jround1 d.score })
  let tierScore := jround1 (tierDetails.foldl (fun s d => jadd s d.score) (.num 0))
  { tierScore := jmin (.num 100) tierScore, tierDetails := tierDetails }

/-- fundScorer.ts `scoreFund` (main, market-wide scoring pass plus the
tier-relative pass; momentum-reversal penalty applied to the market score
only). -/
def scoreFund (data : FundData) : FundScore :=
  let p := data.performance
  let m := data.meta
  let basic := data.basic
  let cat := classifyFund basic.type
  let rbp := p.riskByPeriod
  let hasMorningstar := jgt m.morningstarRating (.num 0)
  let scale : ℚ := if hasMorningstar then 1 else 100 / (100 - W_MORNINGSTAR)
  let periodWeights : List (Option PeriodRiskMetrics × ℚ) :=
    [(rbp.year1, PERIOD_WEIGHT_YEAR1), (rbp.year3, PERIOD_WEIGHT_YEAR3),
     (some rbp.all, PERIOD_WEIGHT_ALL)]
  let sharpeScoreVal := weightedPeriodScore periodWeights
    (fun m => scoreHigherBetter m.sharpeRatio (SHARPE_BENCHMARKS cat) (W_SHARPE * scale))
  let sortinoScoreVal := weightedPeriodScore periodWeights
    (fun m => scoreHigherBetter m.sortinoRatio (SORTINO_BENCHMARKS cat) (W_SORTINO * scale))
  let year1Score := scoreHigherBetter p.returnYear1 (RETURN_YEAR1_BENCHMARKS cat)
    (W_RETURN_YEAR1 * scale)
  let year3Score := scoreHigherBetter p.returnYear3 (RETURN_YEAR3_BENCHMARKS cat)
    (W_RETURN_YEAR3 * scale)
  let calmarScoreVal := weightedPeriodScore periodWeights
    (fun m => scoreHigherBetter m.calmarRatio (CALMAR_BENCHMARKS cat) (W_CALMAR * scale))
  let drawdownScoreVal := weightedPeriodScore periodWeights
    (fun m => scoreLowerBetter m.maxDrawdown (DRAWDOWN_BENCHMARKS cat) (W_MAX_DRAWDOWN * scale))
  let volScoreVal := weightedPeriodScore periodWeights
    (fun m => scoreLowerBetter m.volatility (VOLATILITY_BENCHMARKS cat) (W_VOLATILITY * scale))
  let morningstarScoreVal : JNum :=
    if hasMorningstar then scoreMorningstar m.morningstarRating W_MORNINGSTAR
    else .num 0
  let sizeScoreVal := scoreFundSize m.fundSize (W_FUND_SIZE * scale)
  let mgrScoreVal := scoreManagerYears m.managerYears (W_MANAGER_YEARS * scale)
  let feeScoreVal := scoreFeeRate m.totalFeeRate (W_FEE_RATE * scale)
  let scaledMax := fun (base : ℚ) => mround (base * scale * 10) / 10
  let detailsRaw : List FundScoreDetail :=
    [⟨"夏普比率", .num sharpeScoreVal, scaledMax W_SHARPE⟩,
     ⟨"索提诺比率", .num sortinoScoreVal, scaledMax W_SORTINO⟩,
     ⟨"近1年收益", .num year1Score, scaledMax W_RETURN_YEAR1⟩,
     ⟨"近3年收益", .num year3Score, scaledMax W_RETURN_YEAR3⟩,
     ⟨"卡玛比率", .num calmarScoreVal, scaledMax W_CALMAR⟩,
     ⟨"最大回撤", .num drawdownScoreVal, scaledMax W_MAX_DRAWDOWN⟩,
     ⟨"波动率", .num volScoreVal, scaledMax W_VOLATILITY⟩] ++
    (if hasMorningstar then [⟨"晨星评级", morningstarScoreVal, W_MORNINGSTAR⟩] else []) ++
    [⟨"基金规模", .num sizeScoreVal, scaledMax W_FUND_SIZE⟩,
     ⟨"经理年限", .num mgrScoreVal, scaledMax W_MANAGER_YEARS⟩,
     ⟨"费率", .num feeScoreVal, scaledMax W_FEE_RATE⟩]
  let details := detailsRaw.map (fun d => { d with score := jround1 d.score })
  let returnScore := round1q (round1q sharpeScoreVal + round1q sortinoScoreVal +
    round1q year1Score + round1q year3Score)
  let riskScore := round1q (round1q calmarScoreVal + round1q drawdownScoreVal +
    round1q volScoreVal)
  let overallScore := jround1 (jadd (jadd (jadd (jround1 morningstarScoreVal)
    (.num (round1q sizeScoreVal))) (.num (round1q mgrScoreVal))) (.num (round1q feeScoreVal)))
  let marketScore0 := jround1 (jadd (jadd (.num returnScore) (.num riskScore)) overallScore)
  let y1Return := safeNum p.returnYear1
  let momentumPenalty : ℚ :=
    if 50 < y1Return then 5
    else if 30 < y1Return then 3
    else 0
  let marketScore := jround1 (jmax (.num 0) (jsub marketScore0 (.num momentumPenalty)))
  let vol := rbp.all.volatility
  let riskTier := classifyRiskTier basic.type vol
  let tierResult := scoreFundByTier data riskTier
  { returnScore := returnScore
    riskScore := riskScore
    overallScore := overallScore
    totalScore := marketScore
    momentumPenalty := momentumPenalty
    details := details
    riskTier := riskTier
    tierScore := tierResult.tierScore
    marketScore := marketScore
    tierDetails := tierResult.tierDetails }

/-! ## Point-in-time metrics (backtest/calcHistoricalMetrics.ts)

NAV series are lists of `(timestamp_ms, accumulatedNav)` pairs.  `sq`
stands for `Math.sqrt` and `pw` for `Math.pow`; both are irrational in
general and are taken as parameters. -/

/-- NAV data point `[timestamp_ms, accNav]`. -/
abbrev NavP : Type := ℚ × ℚ

/-- Milliseconds in a nominal year: `365.25 * 24 * 3600 * 1000`. -/
def yearMs : ℚ := 365.25 * 24 * 3600 * 1000

/-- backtest `HistoricalMetrics`. -/
structure HistoricalMetrics where
  returnYear1 : ℚ
  returnYear3 : ℚ
  sharpeRatio : ℚ
  maxDrawdown : ℚ
  volatility : ℚ
  sortinoRatio : ℚ
deriving DecidableEq

/-- calcHistoricalMetrics.ts `calcDailyReturns`: consecutive simple returns,
skipping pairs whose previous NAV is not positive. -/
def calcDailyReturns : List NavP → List ℚ
  | [] => []
  | [_] => []
  | a :: b :: rest =>
      (if 0 < a.2 then [(b.2 - a.2) / a.2] else []) ++ calcDailyReturns (b :: rest)

/-- calcHistoricalMetrics.ts `calcMaxDrawdown`: running-peak forward pass,
result in percent rounded to 2 decimals. -/
def calcMaxDrawdown (navData : List NavP) : ℚ :=
  if navData.length < 2 then 0
  else
    match navData with
    | [] => 0
    | p :: _ =>
        let acc := navData.foldl
          (fun (acc : ℚ × ℚ) pr =>
            let peak := if acc.1 < pr.2 then pr.2 else acc.1
            let dd := (peak - pr.2) / peak
            (peak, if acc.2 < dd then dd else acc.2))
          (p.2, 0)
        mround (acc.2 * 10000) / 100

/-- calcHistoricalMetrics.ts `calcVolatility`: population variance of daily
returns annualized by √252, percent, 2 decimals. -/
def calcVolatility (sq : ℚ → ℚ) (navData : List NavP) : ℚ :=
  if navData.length < 10 then 0
  else
    let returns := calcDailyReturns navData
    if returns.length < 2 then 0
    else
      let mean := returns.sum / (returns.length : ℚ)
      let variance := (returns.map (fun r => (r - mean) ^ 2)).sum / (returns.length : ℚ)
      mround (sq variance * sq 252 * 10000) / 100

/-- calcHistoricalMetrics.ts `calcSharpeRatio` (risk-free 2% annual). -/
def calcSharpeRatio (sq : ℚ → ℚ) (navData : List NavP) : ℚ :=
  if navData.length < 30 then 0
  else
    let returns := calcDailyReturns navData
    if returns.length < 2 then 0
    else
      let mean := returns.sum / (returns.length : ℚ)
      let variance := (returns.map (fun r => (r - mean) ^ 2)).sum / (returns.length : ℚ)
      let stdDev := sq variance
      if stdDev = 0 then 0
      else
        let riskFreeDaily : ℚ := 0.02 / 252
        mround ((mean - riskFreeDaily) / stdDev * sq 252 * 100) / 100

/-- calcHistoricalMetrics.ts `calcSortinoRatio` (sentinel 3 when there are
no downside returns or the downside deviation is 0). -/
def calcSortinoRatio (sq : ℚ → ℚ) (navData : List NavP) (annualReturn : ℚ) : ℚ :=
  if navData.length < 10 then 0
  else
    let returns := calcDailyReturns navData
    let riskFreeDaily : ℚ := 0.02 / 252
    let downsideReturns := (returns.filter (fun r => decide (r < riskFreeDaily))).map
      (fun r => (r - riskFreeDaily) ^ 2)
    if downsideReturns.isEmpty then 3
    else
      let downsideDeviation := sq (downsideReturns.sum / (downsideReturns.length : ℚ))
      let annualizedDownside := downsideDeviation * sq 252
      if annualizedDownside = 0 then 3
      else mround ((annualReturn / 100 - 0.02) / annualizedDownside * 100) / 100

/-- Span in milliseconds between the first and the last point of a slice
(`sliced[sliced.length-1][0] - sliced[0][0]`; 0 default never fires on the
nonempty slices both slicers feed it). -/
def navSpan (l : List NavP) : ℚ :=
  ((l.getLast?.map Prod.fst).getD 0) - ((l.head?.map Prod.fst).getD 0)

/-- calcHistoricalMetrics.ts `sliceNavWindow`: keep points in
`[endTs - years, endTs]`; null unless the slice has ≥ 10 points *and* its
actual span reaches 80% of the nominal window. -/
def sliceNavWindow (navData : List NavP) (endTs windowYears : ℚ) : Option (List NavP) :=
  let startTs := endTs - windowYears * yearMs
  let sliced := navData.filter (fun p => decide (startTs ≤ p.1) && decide (p.1 ≤ endTs))
  if sliced.length < 10 then none
  else
    let actualSpanMs := navSpan sliced
    let requiredSpanMs := windowYears * yearMs * 0.8
    if actualSpanMs < requiredSpanMs then none
    else some sliced

/-- calcHistoricalMetrics.ts `calcReturn`: simple percent return of a
slice, 2 decimals. -/
def calcReturn (navData : List NavP) : ℚ :=
  if navData.length < 2 then 0
  else
    let s := ((navData.head?.map Prod.snd).getD 0)
    let e := ((navData.getLast?.map Prod.snd).getD 0)
    if s ≤ 0 then 0
    else mround ((e - s) / s * 10000) / 100

/-- calcHistoricalMetrics.ts `calcAnnualizedReturn` (fractional `Math.pow`
as parameter `pw`). -/
def calcAnnualizedReturn (pw : ℚ → ℚ → ℚ) (navData : List NavP) : ℚ :=
  if navData.length < 2 then 0
  else
    let startNav := ((navData.head?.map Prod.snd).getD 0)
    let endNav := ((navData.getLast?.map Prod.snd).getD 0)
    if startNav ≤ 0 then 0
    else
      let years := (((navData.getLast?.map Prod.fst).getD 0) -
        ((navData.head?.map Prod.fst).getD 0)) / yearMs
      if years ≤ 0 then 0
      else (pw (endNav / startNav) (1 / years) - 1) * 100

/-- calcHistoricalMetrics.ts `calcCalmarRatio` (the `Number.isFinite`
guards always hold on rationals). -/
def calcCalmarRatio (annualReturn maxDrawdown : ℚ) : ℚ :=
  if maxDrawdown = 0 then 0
  else mround (annualReturn / |maxDrawdown| * 100) / 100

/-- calcHistoricalMetrics.ts `calcPeriodRisk`: null on a null slice or
fewer than 10 points. -/
def calcPeriodRisk (sq : ℚ → ℚ) (pw : ℚ → ℚ → ℚ) (navData : Option (List NavP))
    (annualReturn : ℚ) : Option PeriodRiskMetrics :=
  match navData with
  | none => none
  | some nd =>
      if nd.length < 10 then none
      else
        let maxDrawdown := calcMaxDrawdown nd
        let annualizedReturn := calcAnnualizedReturn pw nd
        some
          { sharpeRatio := .num (calcSharpeRatio sq nd)
            maxDrawdown := .num maxDrawdown
            volatility := .num (calcVolatility sq nd)
            sortinoRatio := .num (calcSortinoRatio sq nd annualReturn)
            calmarRatio := .num (calcCalmarRatio annualizedReturn maxDrawdown) }

/-- Truncation `accNavData.filter(([ts]) => ts <= evalTs)` — the hard
lookahead guard used by `calcMetricsAtDate` and `buildFundDataAtDate`. -/
def navUpTo (accNavData : List NavP) (evalTs : ℚ) : List NavP :=
  accNavData.filter (fun p => decide (p.1 ≤ evalTs))

/-- calcHistoricalMetrics.ts `calcMetricsAtDate`: truncate to `ts ≤ T`,
then compute all metrics from the truncated data only. -/
def calcMetricsAtDate (sq : ℚ → ℚ) (accNavData : List NavP) (evalTs : ℚ) :
    HistoricalMetrics :=
  let dataBeforeT := navUpTo accNavData evalTs
  if dataBeforeT.length < 10 then
    { returnYear1 := 0, returnYear3 := 0, sharpeRatio := 0, maxDrawdown := 0,
      volatility := 0, sortinoRatio := 0 }
  else
    let nav1y := sliceNavWindow dataBeforeT evalTs 1
    let nav3y := sliceNavWindow dataBeforeT evalTs 3
    let returnYear1 := (nav1y.map calcReturn).getD 0
    let returnYear3 := (nav3y.map calcReturn).getD 0
    { returnYear1 := returnYear1
      returnYear3 := returnYear3
      sharpeRatio := calcSharpeRatio sq dataBeforeT
      maxDrawdown := calcMaxDrawdown dataBeforeT
      volatility := calcVolatility sq dataBeforeT
      sortinoRatio := calcSortinoRatio sq dataBeforeT returnYear1 }

/-- Meta record passed into `buildFundDataAtDate`/`backtestAtDate`
(`new Date(establishDate).getTime()` is modelled as the optional timestamp
`establishTs`, `none` standing for an unparseable date, i.e. the JS `NaN`
branch). -/
structure CurrentMeta where
  fundCode : String
  fundName : String
  fundType : String
  establishDate : String
  establishTs : Option ℚ
  fundSize : ℚ
  managerYears : ℚ
  totalFeeRate : ℚ
deriving DecidableEq

/-- calcHistoricalMetrics.ts `buildFundDataAtDate`: reconstruct a
`FundData` at the evaluation date from truncated data only; the star
rating is defaulted to 0 (unknown). -/
def buildFundDataAtDate (sq : ℚ → ℚ) (pw : ℚ → ℚ → ℚ) (metrics : HistoricalMetrics)
    (accNavData : List NavP) (evalTs : ℚ) (currentMeta : CurrentMeta) : FundData :=
  let dataBeforeT := navUpTo accNavData evalTs
  let nav1y := sliceNavWindow dataBeforeT evalTs 1
  let nav3y := sliceNavWindow dataBeforeT evalTs 3
  let riskByPeriod : PeriodRiskBreakdown :=
    { year1 := calcPeriodRisk sq pw nav1y metrics.returnYear1
      year3 := calcPeriodRisk sq pw nav3y metrics.returnYear3
      all :=
        { sharpeRatio := .num metrics.sharpeRatio
          maxDrawdown := .num metrics.maxDrawdown
          volatility := .num metrics.volatility
          sortinoRatio := .num metrics.sortinoRatio
          calmarRatio := .num (calcCalmarRatio (calcAnnualizedReturn pw dataBeforeT)
            metrics.maxDrawdown) } }
  let yearsFromEstablish : ℚ :=
    match currentMeta.establishTs with
    | none => currentMeta.managerYears
    | some t => (evalTs - t) / yearMs
  { basic :=
      { code := currentMeta.fundCode
        name := currentMeta.fundName
        type := currentMeta.fundType
        establishDate := currentMeta.establishDate }
    performance :=
      { returnYear1 := .num metrics.returnYear1
        returnYear3 := .num metrics.returnYear3
        sharpeRatio := .num metrics.sharpeRatio
        maxDrawdown := .num metrics.maxDrawdown
        sortinoRatio := .num metrics.sortinoRatio
        volatility := .num metrics.volatility
        riskByPeriod := riskByPeriod }
    meta :=
      { morningstarRating := .num 0
        categoryRankPercent := .num 0
        fundSize := .num currentMeta.fundSize
        managerYears := .num (mround (max 0 yearsFromEstablish * 10) / 10)
        totalFeeRate := .num currentMeta.totalFeeRate } }

/-- Forward-return record (`period` is the horizon in years; the source
formats it as the string "⟨years⟩y"). -/
structure ForwardReturn where
  period : ℚ
  ret : JNum
  annualized : JNum
deriving DecidableEq

/-- Body of the non-NaN branch of a forward-return computation: percent
return to the target point, annualized via `pw`, both to 2 decimals. -/
def mkFwd (pw : ℚ → ℚ → ℚ) (evalTs evalNav years : ℚ) (tp : NavP) : ForwardReturn :=
  let totalReturn := (tp.2 - evalNav) / evalNav * 100
  let actualYears := (tp.1 - evalTs) / yearMs
  let annualized := if 0 < actualYears then (pw (tp.2 / evalNav) (1 / actualYears) - 1) * 100
    else 0
  { period := years
    ret := .num (round2q totalReturn)
    annualized := .num (round2q annualized) }

/-- One horizon of calcHistoricalMetrics.ts `calcForwardReturns`: find the
first point at/after `T + years`; if none exists fall back to the last
point, and mark the horizon NaN when the actual coverage is below 80% of
the nominal horizon. -/
def forwardEntry (pw : ℚ → ℚ → ℚ) (accNavData : List NavP) (evalTs evalNav : ℚ)
    (rest : List NavP) (years : ℚ) : ForwardReturn :=
  let targetTs := evalTs + years * yearMs
  match rest.find? (fun p => decide (targetTs ≤ p.1)) with
  | some tp => mkFwd pw evalTs evalNav years tp
  | none =>
      let lastP := (accNavData.getLast?).getD (0, 0)
      let actualSpan := lastP.1 - evalTs
      let requiredSpan := years * yearMs * 0.8
      if actualSpan < requiredSpan then
        { period := years, ret := .nan, annualized := .nan }
      else mkFwd pw evalTs evalNav years lastP

/-- calcHistoricalMetrics.ts `calcForwardReturns`: empty when no point lies
at/after the evaluation date or the evaluation NAV is not positive
(the JS loop finding `evalIdx` is the `dropWhile`). -/
def calcForwardReturns (pw : ℚ → ℚ → ℚ) (accNavData : List NavP) (evalTs : ℚ)
    (forwardYears : List ℚ) : List ForwardReturn :=
  match accNavData.dropWhile (fun p => decide (p.1 < evalTs)) with
  | [] => []
  | ep :: tail =>
      if ep.2 ≤ 0 then []
      else forwardYears.map (forwardEntry pw accNavData evalTs ep.2 (ep :: tail))

/-! ## Backtest engine (backtest/backtester.ts) -/

/-- backtest `ScoringBacktestResult` (`evalDate` is kept as timestamp). -/
structure ScoringBacktestResult where
  fundCode : String
  fundName : String
  fundType : String
  evalDate : ℚ
  score : JNum
  scoreDetails : List FundScoreDetail
  metrics : HistoricalMetrics
  forwardReturns : List ForwardReturn
deriving DecidableEq

/-- backtester.ts `backtestAtDate`: point-in-time metrics + score, forward
returns, drop the sample (null) when no forward horizon is valid; the
emitted `forwardReturns` keep only the non-NaN horizons. -/
def backtestAtDate (sq : ℚ → ℚ) (pw : ℚ → ℚ → ℚ) (accNavData : List NavP)
    (evalTs : ℚ) (forwardYears : List ℚ) (meta : CurrentMeta) :
    Option ScoringBacktestResult :=
  let metrics := calcMetricsAtDate sq accNavData evalTs
  let fundData := buildFundDataAtDate sq pw metrics accNavData evalTs meta
  let score := scoreFund fundData
  let forwardReturns := calcForwardReturns pw accNavData evalTs forwardYears
  let validForwards := forwardReturns.filter (fun f => !(f.ret == JNum.nan))
  if validForwards.isEmpty then none
  else some
    { fundCode := meta.fundCode
      fundName := meta.fundName
      fundType := meta.fundType
      evalDate := evalTs
      score := score.totalScore
      scoreDetails := score.details
      metrics := metrics
      forwardReturns := validForwards }

/-- Quintile report row of backtester.ts `calcQuintileReturns`. -/
structure QuintileEntry where
  label : String
  avgScore : JNum
  avgReturn : JNum
  count : ℕ
deriving DecidableEq

/-- Quintile labels of backtester.ts. -/
def QUINTILE_LABELS : List String := ["Q1(最高分)", "Q2", "Q3", "Q4", "Q5(最低分)"]

/-- Sample extraction of backtester.ts `calcQuintileReturns`: pairs
(score, forward return) of the results that carry the requested period. -/
def quintileSamples (results : List ScoringBacktestResult) (period : ℚ) :
    List (JNum × JNum) :=
  results.filterMap (fun r =>
    (r.forwardReturns.find? (fun f => f.period == period)).map (fun f => (r.score, f.ret)))

/-- JS `samples.sort((a, b) => b.score - a.score)`: stable sort, scores
descending. -/
def sortByScoreDesc (samples : List (JNum × JNum)) : List (JNum × JNum) :=
  List.insertionSort (fun a b => jle b.1 a.1 = true) samples

/-- One bucket of `calcQuintileReturns`: the slice
`sorted.slice(qi*q, min(qi*q+q, n))` with mean score (1 decimal), mean
return (2 decimals) and count, or a zero row for an empty slice. -/
def mkQuintile (sorted : List (JNum × JNum)) (q qi : ℕ) : QuintileEntry :=
  let label := QUINTILE_LABELS.getD qi ""
  let grp := (sorted.drop (qi * q)).take q
  if grp.isEmpty then { label := label, avgScore := .num 0, avgReturn := .num 0, count := 0 }
  else
    { label := label
      avgScore := jround1 (jdiv (grp.foldl (fun s g => jadd s g.1) (.num 0))
        (.num (grp.length : ℚ)))
      avgReturn := jround2 (jdiv (grp.foldl (fun s g => jadd s g.2) (.num 0))
        (.num (grp.length : ℚ)))
      count := grp.length }

/-- backtester.ts `calcQuintileReturns`: empty below 5 samples, otherwise
sort by score descending and cut into 5 slices of `ceil(n/5)` (the
`labels.map((label, qi) => ...)` loop over the five labels is the map over
`List.range 5`). -/
def calcQuintileReturns (results : List ScoringBacktestResult) (period : ℚ) :
    List QuintileEntry :=
  let samples := quintileSamples results period
  if samples.length < 5 then []
  else
    let sorted := sortByScoreDesc samples
    let quintileSize := (samples.length + 4) / 5
    (List.range 5).map (mkQuintile sorted quintileSize)

/-! ## Window slicing (analyzers/calcRiskMetrics.ts) -/

/-- calcRiskMetrics.ts `sliceNavData`: find the first index at/after the
cutoff (0 when none matches, as in the JS loop), keep the tail, and demand
only that the actual span reaches 80% of the nominal window — this slicer
has no point-count guard of its own (its caller `calcPeriodRiskMetrics`
rejects slices of fewer than 10 points). -/
def sliceNavData (navData : List NavP) (windowYears : ℚ) : Option (List NavP) :=
  if navData.isEmpty then none
  else
    let latestTs := ((navData.getLast?.map Prod.fst).getD 0)
    let cutoffTs := latestTs - windowYears * yearMs
    let startIdx := (navData.findIdx? (fun p => decide (cutoffTs ≤ p.1))).getD 0
    let sliced := navData.drop startIdx
    let actualSpanMs := navSpan sliced
    let requiredSpanMs := windowYears * yearMs * 0.8
    if actualSpanMs < requiredSpanMs then none
    else some sliced

/-! ## Holdings concentration (analyzers/backtester.ts holdings module) -/

/-- fund.ts `HoldingStock`. -/
structure HoldingStock where
  name : String
  code : String
  percent : ℚ
deriving DecidableEq

/-- fund.ts `IndustryAllocation`. -/
structure IndustryAllocation where
  industry : String
  percent : ℚ
deriving DecidableEq

/-- fund.ts `FundHoldings`. -/
structure FundHoldings where
  topStocks : List HoldingStock
  industries : List IndustryAllocation
  reportDate : String
deriving DecidableEq

/-- backtester.ts (holdings) `calcHHI`: sentinel −1 for an empty industry
list, the constant 1 for a single industry, Σ(w/100)² otherwise. -/
def calcHHI (holdings : FundHoldings) : ℚ :=
  let weights := holdings.industries.map (·.percent)
  if weights.length = 0 then -1
  else if weights.length = 1 then 1
  else (weights.map (fun w => (w / 100) ^ 2)).sum

/-! ## Historical VaR / CVaR (analyzers/riskAnalyzer.ts) -/

/-- fund.ts `NavRecord` (daily return in percent). -/
structure NavRecord where
  date : String
  nav : ℚ
  accNav : ℚ
  dailyReturn : ℚ
deriving DecidableEq

/-- Daily-return extraction shared by `calcVaR` and `calcCVaR`:
`navs.filter(n => n.dailyReturn !== 0 || navs.indexOf(n) > 0)` keeps every
record except a leading zero-return one (JS `indexOf` works on object
identity, i.e. position), then maps percent to fraction. -/
def varReturns (navs : List NavRecord) : List ℚ :=
  (navs.enum.filterMap (fun ni =>
    if ni.2.dailyReturn ≠ 0 ∨ 0 < ni.1 then some (ni.2.dailyReturn / 100) else none))

/-- JS `returns.sort((a, b) => a - b)`: ascending stable sort. -/
def sortAsc (l : List ℚ) : List ℚ := List.insertionSort (· ≤ ·) l

/-- riskAnalyzer.ts `calcVaR`: historical simulation,
`-sorted[⌊(1-confidence)·n⌋]` (0 below 30 returns). -/
def calcVaR (navs : List NavRecord) (confidence : ℚ) : ℚ :=
  let returns := varReturns navs
  if returns.length < 30 then 0
  else
    let sorted := sortAsc returns
    let index := (⌊(1 - confidence) * (sorted.length : ℚ)⌋).toNat;
    -(sorted.getD index 0)

/-- riskAnalyzer.ts `calcCVaR`: mean of the sorted returns below the VaR
cutoff, negated; for cutoff 0 it degenerates to `-sorted[0]`. -/
def calcCVaR (navs : List NavRecord) (confidence : ℚ) : ℚ :=
  let returns := varReturns navs
  if returns.length < 30 then 0
  else
    let sorted := sortAsc returns
    let cutoff := (⌊(1 - confidence) * (sorted.length : ℚ)⌋).toNat
    if cutoff = 0 then -(sorted.getD 0 0)
    else
      let tail := sorted.take cutoff;
      -tail.sum / (tail.length : ℚ)

/-! ## Statement helpers -/

/-- Agreement of the `score` fields of two optional backtest samples (used
to state that the score never depends on post-T data even when the two
series differ in which samples they drop). -/
def scoreAgree : Option ScoringBacktestResult → Option ScoringBacktestResult → Prop
  | some r1, some r2 => r1.score = r2.score
  | _, _ => True

/-! ## Concrete sample inputs used in witnesses and counterexamples -/

/-- Zero period-risk record. -/
def samplePeriod0 : PeriodRiskMetrics := ⟨.num 0, .num 0, .num 0, .num 0, .num 0⟩

/-- Minimal fund record with a given trailing-1y return and star rating. -/
def sampleFund (r1 ms : ℚ) : FundData :=
  { basic := ⟨"000001", "示例基金", "混合型", "2015-01-01"⟩
    performance := ⟨.num r1, .num 0, .num 0, .num 0, .num 0, .num 0,
      ⟨none, none, samplePeriod0⟩⟩
    meta := ⟨.num ms, .num 0, .num 0, .num 0, .num 0⟩ }

/-- Two-point NAV series spanning exactly one nominal year. -/
def nav2y1 : List NavP := [((0 : ℚ), 1), (31557600000, 1.1)]

/-- Eleven NAV points spaced a tenth of a year apart (timestamps in ms). -/
def nav11 : List NavP :=
  [((0 : ℚ), 1), (3155760000, 1), (6311520000, 1), (9467280000, 1),
   (12623040000, 1), (15778800000, 1), (18934560000, 1), (22090320000, 1),
   (25246080000, 1), (28401840000, 1), (31557600000, 1)]

/-- Backtest sample with a given score and a 1-year forward return equal to
the score (enough structure for the quintile analysis). -/
def sampleResult (s : ℚ) : ScoringBacktestResult :=
  ⟨"000001", "示例基金", "混合型", 0, .num s, [], ⟨0, 0, 0, 0, 0, 0⟩,
   [⟨1, .num s, .num 0⟩]⟩

/-- Six backtest samples with scores 1..6. -/
def sampleResults6 : List ScoringBacktestResult :=
  [sampleResult 1, sampleResult 2, sampleResult 3, sampleResult 4,
   sampleResult 5, sampleResult 6]

/-- Thirty NAV records with daily returns 1%, 2%, …, 30%. -/
def sampleNavs30 : List NavRecord :=
  (List.range 30).map (fun (i : ℕ) => ⟨"", 0, 0, (i : ℚ) + 1⟩)

/-- Placeholder square root (theorems are parametric in `sq`). -/
def sqZero : ℚ → ℚ := fun _ => 0

/-- Placeholder power function (theorems are parametric in `pw`). -/
def pwZero : ℚ → ℚ → ℚ := fun _ _ => 0

/-- Two-point NAV series: NAV 1 at time 0, NAV 2 a year later. -/
def navGrow : List NavP := [((0 : ℚ), 1), (31557600000, 2)]

/-- Sample meta record for backtests. -/
def sampleMeta : CurrentMeta := ⟨"000001", "示例基金", "混合型", "2015-01-01", none, 10, 5, 1⟩

/-- Three-point NAV series extending `navGrow` one more year. -/
def navGrowLong : List NavP := [((0 : ℚ), 1), (31557600000, 2), (63115200000, 5)]

/-! ## Claims -/

/-- C3: momentumPenalty of `scoreFund` is 5 when the NaN-coerced trailing
1-year return exceeds 50, 3 when it exceeds 30 (and is at most 50), and 0
otherwise; the market score is the rounded dimension total minus the
penalty floored at 0 (and `totalScore` is that market score); the tier
score is exactly the output of the penalty-free `scoreFundByTier` at the
resolved risk tier — the momentum penalty never touches it. -/
theorem claim_C3 (d : FundData) :
    (scoreFund d).momentumPenalty =
      (if 50 < safeNum d.performance.returnYear1 then 5
       else if 30 < safeNum d.performance.returnYear1 then 3 else 0) ∧
    (scoreFund d).marketScore =
      jround1 (jmax (.num 0)
        (jsub (jround1 (jadd (jadd (.num (scoreFund d).returnScore)
            (.num (scoreFund d).riskScore)) (scoreFund d).overallScore))
          (.num (scoreFund d).momentumPenalty))) ∧
    (scoreFund d).totalScore = (scoreFund d).marketScore ∧
    (scoreFund d).tierScore =
      (scoreFundByTier d (classifyRiskTier d.basic.type
        d.performance.riskByPeriod.all.volatility)).tierScore :=
  ⟨rfl, rfl, rfl, rfl⟩

/-- C7 counterexample: the claimed HHI formula Σ(weight/100)² fails for a
single-industry fund whose weight is not 100%: `calcHHI` returns the
constant 1 while the formula gives 1/4 at weight 50%. -/
theorem claim_C7_counterexample :
    calcHHI ⟨[], [⟨"银行", 50⟩], ""⟩ = 1 ∧
    ((⟨[], [⟨"银行", 50⟩], ""⟩ : FundHoldings).industries.map
      (fun i => (i.percent / 100) ^ 2)).sum = 1 / 4 ∧
    calcHHI ⟨[], [⟨"银行", 50⟩], ""⟩ ≠
      ((⟨[], [⟨"银行", 50⟩], ""⟩ : FundHoldings).industries.map
        (fun i => (i.percent / 100) ^ 2)).sum := by
  refine ⟨by norm_num [calcHHI], by norm_num, ?_⟩
  norm_num [calcHHI]

/-- C7 (amended): `calcHHI` returns the sentinel −1 exactly when the
industry list is empty; for exactly one industry it returns the constant 1
regardless of that industry's weight; only with at least two industries is
the result the sum of squared weight fractions Σ(weight/100)². -/
theorem claim_C7 (h : FundHoldings) :
    (h.industries = [] → calcHHI h = -1) ∧
    (calcHHI h = -1 → h.industries = []) ∧
    (∀ x, h.industries = [x] → calcHHI h = 1) ∧
    (2 ≤ h.industries.length →
      calcHHI h = (h.industries.map (fun i => (i.percent / 100) ^ 2)).sum) := by
  refine ⟨fun he => by simp [calcHHI, he], ?_, fun x hx => by simp [calcHHI, hx], ?_⟩
  · intro hv
    rcases hi : h.industries with _ | ⟨x, _ | ⟨y, t⟩⟩
    · rfl
    · rw [calcHHI, hi] at hv
      norm_num at hv
    · exfalso
      rw [calcHHI, hi] at hv
      simp only [List.map_cons, List.length_cons, List.length_map] at hv
      rw [if_neg (by omega), if_neg (by omega)] at hv
      have h1 : (0 : ℚ) ≤ (x.percent / 100) ^ 2 := by positivity
      have h2 : (0 : ℚ) ≤ (y.percent / 100) ^ 2 := by positivity
      have h3 : (0 : ℚ) ≤
          (List.map (fun w => (w / 100) ^ 2) (List.map (fun i => i.percent) t)).sum := by
        refine List.sum_nonneg ?_
        intro z hz
        obtain ⟨w, _, rfl⟩ := List.mem_map.mp hz
        positivity
      rw [List.sum_cons, List.sum_cons] at hv
      linarith
  · intro h2
    rw [calcHHI]
    rw [List.length_map, if_neg (by omega), if_neg (by omega), List.map_map]
    rfl

/-- C7 witness: with two industries of 60% and 40% the amended formula
branch applies. -/
theorem claim_C7_witness :
    2 ≤ (⟨[], [⟨"银行", 60⟩, ⟨"科技", 40⟩], ""⟩ : FundHoldings).industries.length ∧
    calcHHI ⟨[], [⟨"银行", 60⟩, ⟨"科技", 40⟩], ""⟩ =
      ((⟨[], [⟨"银行", 60⟩, ⟨"科技", 40⟩], ""⟩ : FundHoldings).industries.map
        (fun i => (i.percent / 100) ^ 2)).sum :=
  ⟨by norm_num, (claim_C7 _).2.2.2 (by norm_num)⟩

/-- C6 counterexample: `sliceNavData` (calcRiskMetrics.ts) has no ≥10-point
guard — on a two-point series spanning a full year it returns a non-null
slice of only 2 points, contradicting the claim that every non-null result
has at least 10 points. -/
theorem claim_C6_counterexample :
    sliceNavData nav2y1 1 = some nav2y1 ∧ ¬ (10 ≤ nav2y1.length) := by
  constructor
  · norm_num [sliceNavData, nav2y1, yearMs, navSpan, List.findIdx?_cons]
  · norm_num [nav2y1]

/-- C6 (amended): `sliceNavWindow` (calcHistoricalMetrics.ts) indeed
returns null unless the slice has at least 10 points *and* its span is at
least 80% of the nominal window; `sliceNavData` (calcRiskMetrics.ts) only
guarantees the span condition — its ≥10-point guard lives in the caller
`calcPeriodRiskMetrics`, so a non-null `sliceNavData` result may have fewer
than 10 points. -/
theorem claim_C6 :
    (∀ (navData : List NavP) (endTs windowYears : ℚ) (r : List NavP),
      sliceNavWindow navData endTs windowYears = some r →
        10 ≤ r.length ∧ windowYears * yearMs * 0.8 ≤ navSpan r) ∧
    (∀ (navData : List NavP) (windowYears : ℚ) (r : List NavP),
      sliceNavData navData windowYears = some r →
        windowYears * yearMs * 0.8 ≤ navSpan r) := by
  constructor
  · intro nd endTs y r h
    simp only [sliceNavWindow] at h
    split at h
    · exact absurd h (by simp)
    · split at h
      · exact absurd h (by simp)
      · obtain rfl : _ = r := Option.some.inj h
        constructor
        · omega
        · next h10 hspan => exact not_lt.mp hspan
  · intro nd y r h
    simp only [sliceNavData] at h
    split at h
    · exact absurd h (by simp)
    · split at h
      · exact absurd h (by simp)
      · obtain rfl : _ = r := Option.some.inj h
        next hspan => exact not_lt.mp hspan

/-- C6 witness: an 11-point series spanning one nominal year passes both
guards of `sliceNavWindow`. -/
theorem claim_C6_witness :
    sliceNavWindow nav11 31557600000 1 = some nav11 ∧
    (10 ≤ nav11.length ∧ 1 * yearMs * 0.8 ≤ navSpan nav11) := by
  have h : sliceNavWindow nav11 31557600000 1 = some nav11 := by
    norm_num [sliceNavWindow, nav11, yearMs, navSpan, List.filter]
  exact ⟨h, claim_C6.1 nav11 31557600000 1 nav11 h⟩

/-- C5: `weightedPeriodScore` over the nominal weights 0.4/0.3/0.3 drops
null periods and renormalizes the remaining weights to sum to 1: if every
present period scores the maximum `M`, the combined value is exactly `M`
(not a fraction of it); with all three periods null it is 0; and with
year3 missing it equals the 0.4/0.3-weighted average renormalized by
0.4 + 0.3. -/
theorem claim_C5 (y1 y3 a : Option PeriodRiskMetrics) (f : PeriodRiskMetrics → ℚ) (M : ℚ)
    (hy1 : ∀ m, y1 = some m → f m = M) (hy3 : ∀ m, y3 = some m → f m = M)
    (ha : ∀ m, a = some m → f m = M) :
    weightedPeriodScore [(none, PERIOD_WEIGHT_YEAR1), (none, PERIOD_WEIGHT_YEAR3),
      (none, PERIOD_WEIGHT_ALL)] f = 0 ∧
    (y1.isSome ∨ y3.isSome ∨ a.isSome →
      weightedPeriodScore [(y1, PERIOD_WEIGHT_YEAR1), (y3, PERIOD_WEIGHT_YEAR3),
        (a, PERIOD_WEIGHT_ALL)] f = M) ∧
    (∀ m1 ma, weightedPeriodScore [(some m1, PERIOD_WEIGHT_YEAR1),
        (none, PERIOD_WEIGHT_YEAR3), (some ma, PERIOD_WEIGHT_ALL)] f =
      (PERIOD_WEIGHT_YEAR1 * f m1 + PERIOD_WEIGHT_ALL * f ma) /
        (PERIOD_WEIGHT_YEAR1 + PERIOD_WEIGHT_ALL)) := by
  refine ⟨?_, ?_, ?_⟩
  · norm_num [weightedPeriodScore]
  · intro hp
    rcases y1 with _ | m1 <;> rcases y3 with _ | m3 <;> rcases a with _ | ma <;>
      simp only [Option.isSome_none, Option.isSome_some, Bool.false_eq_true, or_self,
        or_true, true_or, or_false, false_or] at hp
    all_goals
      simp only [weightedPeriodScore, List.foldl,
        PERIOD_WEIGHT_YEAR1, PERIOD_WEIGHT_YEAR3, PERIOD_WEIGHT_ALL]
    all_goals
      first
        | (rw [hy1 _ rfl, hy3 _ rfl, ha _ rfl]; rw [if_pos (by norm_num)];
           rw [div_eq_iff (by norm_num)]; ring)
        | (rw [hy1 _ rfl, hy3 _ rfl]; rw [if_pos (by norm_num)];
           rw [div_eq_iff (by norm_num)]; ring)
        | (rw [hy1 _ rfl, ha _ rfl]; rw [if_pos (by norm_num)];
           rw [div_eq_iff (by norm_num)]; ring)
        | (rw [hy3 _ rfl, ha _ rfl]; rw [if_pos (by norm_num)];
           rw [div_eq_iff (by norm_num)]; ring)
        | (rw [hy1 _ rfl]; rw [if_pos (by norm_num)];
           rw [div_eq_iff (by norm_num)]; ring)
        | (rw [hy3 _ rfl]; rw [if_pos (by norm_num)];
           rw [div_eq_iff (by norm_num)]; ring)
        | (rw [ha _ rfl]; rw [if_pos (by norm_num)];
           rw [div_eq_iff (by norm_num)]; ring)
  · intro m1 ma
    simp only [weightedPeriodScore, List.foldl,
      PERIOD_WEIGHT_YEAR1, PERIOD_WEIGHT_YEAR3, PERIOD_WEIGHT_ALL]
    rw [if_pos (by norm_num)]
    rw [div_eq_div_iff (by norm_num) (by norm_num)]
    ring

/-- C5 witness: year1 and all present (year3 null) with every present
period scoring the constant 7 recovers exactly 7. -/
theorem claim_C5_witness :
    (∀ m, some samplePeriod0 = some m → (fun _ => (7 : ℚ)) m = 7) ∧
    (some samplePeriod0).isSome = true ∧
    weightedPeriodScore [(some samplePeriod0, PERIOD_WEIGHT_YEAR1),
      (none, PERIOD_WEIGHT_YEAR3), (some samplePeriod0, PERIOD_WEIGHT_ALL)]
      (fun _ => 7) = 7 :=
  ⟨fun _ _ => rfl, rfl,
    (claim_C5 (some samplePeriod0) none (some samplePeriod0) (fun _ => 7) 7
      (fun _ _ => rfl) (fun _ h => by cases h) (fun _ _ => rfl)).2.1 (Or.inl rfl)⟩

/-- C2: with an unknown star rating (not > 0), every emitted item's max
score is exactly the base weight rescaled by 100/92 and rounded to 1
decimal, the rating item is omitted from the details, and the emitted max
scores sum to exactly 100; with a known rating the scale is 1 (the maxes
are the base weights), the rating item is present with max 8, and the sum
is again 100. -/
theorem claim_C2 (d : FundData) :
    (jgt d.meta.morningstarRating (JNum.num 0) = false →
      ((scoreFund d).details.map (·.maxScore) =
        [round1q (W_SHARPE * (100 / 92)), round1q (W_SORTINO * (100 / 92)),
         round1q (W_RETURN_YEAR1 * (100 / 92)), round1q (W_RETURN_YEAR3 * (100 / 92)),
         round1q (W_CALMAR * (100 / 92)), round1q (W_MAX_DRAWDOWN * (100 / 92)),
         round1q (W_VOLATILITY * (100 / 92)), round1q (W_FUND_SIZE * (100 / 92)),
         round1q (W_MANAGER_YEARS * (100 / 92)), round1q (W_FEE_RATE * (100 / 92))]) ∧
      (scoreFund d).details.all (fun det => !(det.item == "晨星评级")) = true ∧
      ((scoreFund d).details.map (·.maxScore)).sum = 100) ∧
    (jgt d.meta.morningstarRating (JNum.num 0) = true →
      ((scoreFund d).details.map (·.maxScore) =
        [W_SHARPE, W_SORTINO, W_RETURN_YEAR1, W_RETURN_YEAR3, W_CALMAR,
         W_MAX_DRAWDOWN, W_VOLATILITY, W_MORNINGSTAR, W_FUND_SIZE,
         W_MANAGER_YEARS, W_FEE_RATE]) ∧
      (scoreFund d).details.any
        (fun det => det.item == "晨星评级" && det.maxScore == (8 : ℚ)) = true ∧
      ((scoreFund d).details.map (·.maxScore)).sum = 100) := by
  constructor
  · intro hm
    have hmap : (scoreFund d).details.map (·.maxScore) =
        [round1q (W_SHARPE * (100 / 92)), round1q (W_SORTINO * (100 / 92)),
         round1q (W_RETURN_YEAR1 * (100 / 92)), round1q (W_RETURN_YEAR3 * (100 / 92)),
         round1q (W_CALMAR * (100 / 92)), round1q (W_MAX_DRAWDOWN * (100 / 92)),
         round1q (W_VOLATILITY * (100 / 92)), round1q (W_FUND_SIZE * (100 / 92)),
         round1q (W_MANAGER_YEARS * (100 / 92)), round1q (W_FEE_RATE * (100 / 92))] := by
      simp only [scoreFund, hm, Bool.false_eq_true, if_false, List.map_append, List.map_cons,
        List.map_nil, List.append_assoc, List.nil_append, List.cons_append]
      norm_num [round1q, mround, W_SHARPE, W_SORTINO, W_RETURN_YEAR1, W_RETURN_YEAR3,
        W_CALMAR, W_MAX_DRAWDOWN, W_VOLATILITY, W_MORNINGSTAR, W_FUND_SIZE,
        W_MANAGER_YEARS, W_FEE_RATE]
    refine ⟨hmap, ?_, ?_⟩
    · simp only [scoreFund, hm, Bool.false_eq_true, if_false]
      simp [List.all_append]
    · rw [hmap]
      norm_num [round1q, mround, W_SHARPE, W_SORTINO, W_RETURN_YEAR1, W_RETURN_YEAR3,
        W_CALMAR, W_MAX_DRAWDOWN, W_VOLATILITY, W_FUND_SIZE, W_MANAGER_YEARS, W_FEE_RATE]
  · intro hm
    have hmap : (scoreFund d).details.map (·.maxScore) =
        [W_SHARPE, W_SORTINO, W_RETURN_YEAR1, W_RETURN_YEAR3, W_CALMAR,
         W_MAX_DRAWDOWN, W_VOLATILITY, W_MORNINGSTAR, W_FUND_SIZE,
         W_MANAGER_YEARS, W_FEE_RATE] := by
      simp only [scoreFund, hm, if_true, List.map_append, List.map_cons,
        List.map_nil, List.append_assoc, List.nil_append, List.cons_append]
      norm_num [mround, W_SHARPE, W_SORTINO, W_RETURN_YEAR1, W_RETURN_YEAR3,
        W_CALMAR, W_MAX_DRAWDOWN, W_VOLATILITY, W_MORNINGSTAR, W_FUND_SIZE,
        W_MANAGER_YEARS, W_FEE_RATE]
    refine ⟨hmap, ?_, ?_⟩
    · simp only [scoreFund, hm, if_true]
      simp [List.any_append, W_MORNINGSTAR]
    · rw [hmap]
      norm_num [W_SHARPE, W_SORTINO, W_RETURN_YEAR1, W_RETURN_YEAR3, W_CALMAR,
        W_MAX_DRAWDOWN, W_VOLATILITY, W_MORNINGSTAR, W_FUND_SIZE, W_MANAGER_YEARS,
        W_FEE_RATE]

/-- C2 witness: a fund with rating 0 takes the rescaling branch, one with
rating 4 the plain branch. -/
theorem claim_C2_witness :
    jgt (sampleFund 0 0).meta.morningstarRating (JNum.num 0) = false ∧
    jgt (sampleFund 0 4).meta.morningstarRating (JNum.num 0) = true ∧
    ((scoreFund (sampleFund 0 0)).details.map (·.maxScore)).sum = 100 ∧
    (scoreFund (sampleFund 0 4)).details.map (·.maxScore) =
      [W_SHARPE, W_SORTINO, W_RETURN_YEAR1, W_RETURN_YEAR3, W_CALMAR,
       W_MAX_DRAWDOWN, W_VOLATILITY, W_MORNINGSTAR, W_FUND_SIZE,
       W_MANAGER_YEARS, W_FEE_RATE] := by
  have h0 : jgt (sampleFund 0 0).meta.morningstarRating (JNum.num 0) = false := by
    norm_num [sampleFund, jgt, jlt]
  have h4 : jgt (sampleFund 0 4).meta.morningstarRating (JNum.num 0) = true := by
    norm_num [sampleFund, jgt, jlt]
  exact ⟨h0, h4, ((claim_C2 (sampleFund 0 0)).1 h0).2.2, ((claim_C2 (sampleFund 0 4)).2 h4).1⟩

/-- Helper: first component of the defaulted last element agrees with the
defaulted mapped last timestamp. -/
theorem getLastD_fst (nav : List NavP) :
    ((nav.getLast?).getD ((0 : ℚ), (0 : ℚ))).1 = ((nav.getLast?.map Prod.fst).getD 0) := by
  cases nav.getLast? <;> rfl

/-- Helper: the valid-forward filter is empty exactly when every forward
return is NaN. -/
theorem filter_valid_empty_iff (l : List ForwardReturn) :
    (l.filter (fun f => !(f.ret == JNum.nan))).isEmpty = true ↔
    l.all (fun fr => fr.ret == JNum.nan) = true := by
  rw [List.isEmpty_iff, List.filter_eq_nil_iff, List.all_eq_true]
  constructor <;> intro h f hf <;> have := h f hf <;> simpa using this

/-- C8: a backtest sample is dropped (`backtestAtDate` returns null)
exactly when every requested horizon's forward return is NaN; an emitted
sample carries only non-NaN forward returns; and, whenever the evaluation
point exists with a positive NAV, a horizon is marked NaN exactly when no
data point reaches the target date and the remaining data span covers less
than 80% of the nominal horizon. -/
theorem claim_C8 (sq : ℚ → ℚ) (pw : ℚ → ℚ → ℚ) (nav : List NavP) (T : ℚ)
    (fy : List ℚ) (meta : CurrentMeta) :
    (backtestAtDate sq pw nav T fy meta = none ↔
      (calcForwardReturns pw nav T fy).all (fun fr => fr.ret == JNum.nan) = true) ∧
    (backtestAtDate sq pw nav T fy meta).elim True
      (fun r => r.forwardReturns.all (fun fr => !(fr.ret == JNum.nan)) = true) ∧
    (∀ ep tl, nav.dropWhile (fun p => decide (p.1 < T)) = ep :: tl → 0 < ep.2 →
      (calcForwardReturns pw nav T fy = fy.map (forwardEntry pw nav T ep.2 (ep :: tl)) ∧
       ∀ y, ((forwardEntry pw nav T ep.2 (ep :: tl) y).ret = JNum.nan ↔
         ((ep :: tl).all (fun p => decide (p.1 < T + y * yearMs)) = true ∧
          ((nav.getLast?.map Prod.fst).getD 0) - T < y * yearMs * 0.8)))) := by
  refine ⟨?_, ?_, ?_⟩
  · simp only [backtestAtDate]
    by_cases hE : ((calcForwardReturns pw nav T fy).filter
        (fun f => !(f.ret == JNum.nan))).isEmpty = true
    · rw [if_pos hE]
      exact ⟨fun _ => (filter_valid_empty_iff _).mp hE, fun _ => rfl⟩
    · rw [if_neg hE]
      constructor
      · intro hcon; cases hcon
      · intro hall; exact absurd ((filter_valid_empty_iff _).mpr hall) hE
  · simp only [backtestAtDate]
    split
    · exact trivial
    · simp only [Option.elim_some]
      rw [List.all_eq_true]
      intro f hf
      simpa using (List.mem_filter.mp hf).2
  · intro ep tl hrest hnav
    constructor
    · simp only [calcForwardReturns, hrest]
      rw [if_neg (not_le.mpr hnav)]
    · intro y
      rcases hfind : (ep :: tl).find? (fun p => decide (T + y * yearMs ≤ p.1)) with _ | tp
      · have hall : (ep :: tl).all (fun p => decide (p.1 < T + y * yearMs)) = true := by
          rw [List.all_eq_true]
          intro p hp
          have := List.find?_eq_none.mp hfind p hp
          simp only [decide_eq_true_eq] at this ⊢
          linarith [not_le.mp this]
        simp only [forwardEntry, hfind]
        rw [getLastD_fst]
        split
        · next hspan =>
            simp only [true_iff, iff_true]
            refine ⟨hall, by linarith [hspan]⟩
        · next hspan =>
            constructor
            · intro hcon
              simp [mkFwd] at hcon
            · intro hcon
              exact absurd hcon.2 (by linarith [not_lt.mp hspan])
      · have htp := List.find?_some hfind
        have hmem := List.mem_of_find?_eq_some hfind
        simp only [decide_eq_true_eq] at htp
        simp only [forwardEntry, hfind]
        constructor
        · intro hcon
          simp [mkFwd] at hcon
        · intro hcon
          have := List.all_eq_true.mp hcon.1 tp hmem
          simp only [decide_eq_true_eq] at this
          linarith

/-- C8 witness: on a two-point one-year series evaluated at time 0, the
3-year horizon has no covering point and under 80% coverage, so it is
marked NaN. -/
theorem claim_C8_witness :
    navGrow.dropWhile (fun p => decide (p.1 < (0 : ℚ))) =
      ((0 : ℚ), (1 : ℚ)) :: [((31557600000 : ℚ), (2 : ℚ))] ∧
    ((0 : ℚ) < (1 : ℚ)) ∧
    ((forwardEntry pwZero navGrow 0 1 (((0 : ℚ), (1 : ℚ)) :: [((31557600000 : ℚ), (2 : ℚ))]) 3).ret
        = JNum.nan ↔
      ((((0 : ℚ), (1 : ℚ)) :: [((31557600000 : ℚ), (2 : ℚ))]).all
        (fun p => decide (p.1 < 0 + 3 * yearMs)) = true ∧
       ((navGrow.getLast?.map Prod.fst).getD 0) - 0 < 3 * yearMs * 0.8)) := by
  have h1 : navGrow.dropWhile (fun p => decide (p.1 < (0 : ℚ))) =
      ((0 : ℚ), (1 : ℚ)) :: [((31557600000 : ℚ), (2 : ℚ))] := by
    norm_num [navGrow, List.dropWhile_cons]
  exact ⟨h1, by norm_num,
    ((claim_C8 sqZero pwZero navGrow 0 [3] sampleMeta).2.2 _ _ h1 (by norm_num)).2 3⟩

/-- C1: the backtest score at date T depends only on data points with
timestamp ≤ T: two series agreeing on their truncation to T give the same
point-in-time metrics, the same reconstructed FundData, and the same score
field in any emitted backtest sample (only the forward-return side — which
is deliberately future-looking — may differ). -/
theorem claim_C1 (sq : ℚ → ℚ) (pw : ℚ → ℚ → ℚ) (s1 s2 : List NavP) (T : ℚ)
    (metrics : HistoricalMetrics) (meta : CurrentMeta) (fy : List ℚ)
    (h : navUpTo s1 T = navUpTo s2 T) :
    calcMetricsAtDate sq s1 T = calcMetricsAtDate sq s2 T ∧
    buildFundDataAtDate sq pw metrics s1 T meta = buildFundDataAtDate sq pw metrics s2 T meta ∧
    scoreAgree (backtestAtDate sq pw s1 T fy meta) (backtestAtDate sq pw s2 T fy meta) := by
  have hm : calcMetricsAtDate sq s1 T = calcMetricsAtDate sq s2 T := by
    simp only [calcMetricsAtDate, h]
  have hb : ∀ me, buildFundDataAtDate sq pw me s1 T meta =
      buildFundDataAtDate sq pw me s2 T meta := by
    intro me
    simp only [buildFundDataAtDate, h]
  refine ⟨hm, hb metrics, ?_⟩
  simp only [backtestAtDate, hm, hb]
  split <;> split <;> simp [scoreAgree]

/-- C1 witness: appending a post-T point leaves the truncation — and hence
metrics, fund data and score — unchanged. -/
theorem claim_C1_witness :
    navUpTo navGrow 31557600000 = navUpTo navGrowLong 31557600000 ∧
    (calcMetricsAtDate sqZero navGrow 31557600000 =
      calcMetricsAtDate sqZero navGrowLong 31557600000 ∧
     buildFundDataAtDate sqZero pwZero ⟨0, 0, 0, 0, 0, 0⟩ navGrow 31557600000 sampleMeta =
      buildFundDataAtDate sqZero pwZero ⟨0, 0, 0, 0, 0, 0⟩ navGrowLong 31557600000 sampleMeta ∧
     scoreAgree (backtestAtDate sqZero pwZero navGrow 31557600000 [1] sampleMeta)
       (backtestAtDate sqZero pwZero navGrowLong 31557600000 [1] sampleMeta)) := by
  have h : navUpTo navGrow 31557600000 = navUpTo navGrowLong 31557600000 := by
    norm_num [navUpTo, navGrow, navGrowLong, List.filter]
  exact ⟨h, claim_C1 sqZero pwZero navGrow navGrowLong 31557600000 ⟨0, 0, 0, 0, 0, 0⟩
    sampleMeta [1] h⟩

/-- Helper: flattening the `k` consecutive `q`-sized slices of a list
reproduces its first `k·q` elements. -/
theorem sliceFlatten {α : Type} : ∀ (k : ℕ) (l : List α) (q : ℕ),
    ((List.range k).map (fun qi => (l.drop (qi * q)).take q)).flatten = l.take (k * q) := by
  intro k
  induction k with
  | zero => intro l q; simp
  | succ n ih =>
      intro l q
      rw [List.range_succ, List.map_append, List.flatten_append, ih]
      simp only [List.map_cons, List.map_nil, List.flatten_cons, List.flatten_nil,
        List.append_nil]
      rw [Nat.succ_mul, List.take_add]

/-- Helper: the six sample results yield the six (score, return) pairs. -/
theorem quintSamplesEval :
    quintileSamples sampleResults6 1 =
      [(JNum.num 1, JNum.num 1), (JNum.num 2, JNum.num 2), (JNum.num 3, JNum.num 3),
       (JNum.num 4, JNum.num 4), (JNum.num 5, JNum.num 5), (JNum.num 6, JNum.num 6)] := by
  norm_num [quintileSamples, sampleResults6, sampleResult, List.find?_cons,
    List.filterMap_cons, beq_iff_eq]

set_option maxHeartbeats 1000000 in
/-- Helper: sorting the six sample pairs by score descending. -/
theorem quintSortedEval :
    sortByScoreDesc
      [(JNum.num 1, JNum.num 1), (JNum.num 2, JNum.num 2), (JNum.num 3, JNum.num 3),
       (JNum.num 4, JNum.num 4), (JNum.num 5, JNum.num 5), (JNum.num 6, JNum.num 6)] =
      [(JNum.num 6, JNum.num 6), (JNum.num 5, JNum.num 5), (JNum.num 4, JNum.num 4),
       (JNum.num 3, JNum.num 3), (JNum.num 2, JNum.num 2), (JNum.num 1, JNum.num 1)] := by
  norm_num [sortByScoreDesc, List.insertionSort, List.orderedInsert, jle]

set_option maxHeartbeats 1000000 in
/-- Helper: quintile counts for six samples are 2,2,2,0,0. -/
theorem quintCountsEval :
    (calcQuintileReturns sampleResults6 1).map (·.count) = [2, 2, 2, 0, 0] := by
  rw [calcQuintileReturns]
  rw [quintSamplesEval]
  norm_num [quintSortedEval, mkQuintile, List.range_succ]

/-- C9 counterexample: with 6 valid samples the quintile group sizes are
2, 2, 2, 0, 0 — they do not differ by at most one (2 vs 0), refuting the
near-equal-split part of the claim. -/
theorem claim_C9_counterexample :
    (calcQuintileReturns sampleResults6 1).map (·.count) = [2, 2, 2, 0, 0] ∧
    ¬ (∀ a ∈ (calcQuintileReturns sampleResults6 1).map (·.count),
        ∀ b ∈ (calcQuintileReturns sampleResults6 1).map (·.count), a ≤ b + 1) := by
  refine ⟨quintCountsEval, ?_⟩
  rw [quintCountsEval]
  intro hcon
  have := hcon 2 (by decide) 0 (by decide)
  omega

/-- C9 (amended): with at least 5 valid samples, `calcQuintileReturns`
sorts by score descending and cuts the sorted list into 5 consecutive
slices of `ceil(n/5)` samples each (the trailing slices possibly shorter
or empty): the slices concatenate back to the whole sorted list — so every
sample lands in exactly one group — and the reported counts are exactly
the slice lengths and sum to the number of valid samples.  Group sizes
need *not* differ by at most one (see the counterexample). -/
theorem claim_C9 (rs : List ScoringBacktestResult) (period : ℚ)
    (h5 : 5 ≤ (quintileSamples rs period).length) :
    ((List.range 5).map (fun qi =>
        ((sortByScoreDesc (quintileSamples rs period)).drop
          (qi * (((quintileSamples rs period).length + 4) / 5))).take
          (((quintileSamples rs period).length + 4) / 5))).flatten =
      sortByScoreDesc (quintileSamples rs period) ∧
    (calcQuintileReturns rs period).map (·.count) =
      (List.range 5).map (fun qi =>
        (((sortByScoreDesc (quintileSamples rs period)).drop
          (qi * (((quintileSamples rs period).length + 4) / 5))).take
          (((quintileSamples rs period).length + 4) / 5)).length) ∧
    ((calcQuintileReturns rs period).map (·.count)).sum =
      (quintileSamples rs period).length := by
  have hlen : (sortByScoreDesc (quintileSamples rs period)).length =
      (quintileSamples rs period).length :=
    (List.perm_insertionSort _ (quintileSamples rs period)).length_eq
  have hcover : (sortByScoreDesc (quintileSamples rs period)).length ≤
      5 * (((quintileSamples rs period).length + 4) / 5) := by
    rw [hlen]; omega
  have hflat : ((List.range 5).map (fun qi =>
      ((sortByScoreDesc (quintileSamples rs period)).drop
        (qi * (((quintileSamples rs period).length + 4) / 5))).take
        (((quintileSamples rs period).length + 4) / 5))).flatten =
      sortByScoreDesc (quintileSamples rs period) := by
    rw [sliceFlatten 5 _ _, List.take_of_length_le hcover]
  have hcounts : (calcQuintileReturns rs period).map (·.count) =
      (List.range 5).map (fun qi =>
        (((sortByScoreDesc (quintileSamples rs period)).drop
          (qi * (((quintileSamples rs period).length + 4) / 5))).take
          (((quintileSamples rs period).length + 4) / 5)).length) := by
    rw [calcQuintileReturns]
    rw [if_neg (by omega)]
    rw [List.map_map]
    refine List.map_congr_left ?_
    intro qi _
    simp only [Function.comp_apply]
    rw [mkQuintile]
    by_cases hE : (((sortByScoreDesc (quintileSamples rs period)).drop
        (qi * (((quintileSamples rs period).length + 4) / 5))).take
        (((quintileSamples rs period).length + 4) / 5)).isEmpty = true
    · rw [if_pos hE]
      simp [List.isEmpty_iff.mp hE]
    · rw [if_neg hE]
  refine ⟨hflat, hcounts, ?_⟩
  rw [hcounts]
  have hl := congrArg List.length hflat
  rw [List.length_flatten, List.map_map, hlen] at hl
  exact hl

/-- C9 witness: the six sample results have at least 5 valid samples and
their reported group counts sum to 6. -/
theorem claim_C9_witness :
    5 ≤ (quintileSamples sampleResults6 1).length ∧
    ((calcQuintileReturns sampleResults6 1).map (·.count)).sum =
      (quintileSamples sampleResults6 1).length := by
  have h5 : 5 ≤ (quintileSamples sampleResults6 1).length := by
    rw [quintSamplesEval]
    norm_num
  exact ⟨h5, (claim_C9 sampleResults6 1 h5).2.2⟩

/-- Helper: when every record's daily return is nonzero, the VaR filter
keeps all of them. -/
theorem varReturns_length_of_nonzero (navs : List NavRecord)
    (h : ∀ n ∈ navs, n.dailyReturn ≠ 0) :
    (varReturns navs).length = navs.length := by
  unfold varReturns
  have hcong : ∀ ni ∈ navs.enum,
      (if ni.2.dailyReturn ≠ 0 ∨ 0 < ni.1 then some (ni.2.dailyReturn / 100) else none) =
      ((some ∘ fun ni : ℕ × NavRecord => ni.2.dailyReturn / 100) ni) := by
    intro ni hni
    rw [if_pos]
    · rfl
    · left
      apply h
      rw [← List.enum_map_snd navs]
      exact List.mem_map_of_mem Prod.snd hni
  rw [List.filterMap_congr hcong, List.filterMap_eq_map, List.length_map, List.enum_length]

/-- C10: tail-risk coherence — with at least 30 filtered daily returns and
a confidence level strictly between 0 and 1, the historical CVaR (mean
loss beyond the VaR cutoff) is at least the historical VaR threshold. -/
theorem claim_C10 (navs : List NavRecord) (confidence : ℚ)
    (h30 : 30 ≤ (varReturns navs).length) (hc0 : 0 < confidence) (hc1 : confidence < 1) :
    calcVaR navs confidence ≤ calcCVaR navs confidence := by
  have hslen : (sortAsc (varReturns navs)).length = (varReturns navs).length :=
    (List.perm_insertionSort _ (varReturns navs)).length_eq
  have hx0 : (0 : ℚ) ≤ (1 - confidence) * ((sortAsc (varReturns navs)).length : ℚ) := by
    have : (0 : ℚ) ≤ 1 - confidence := by linarith
    positivity
  have hfl0 : 0 ≤ ⌊(1 - confidence) * ((sortAsc (varReturns navs)).length : ℚ)⌋ :=
    Int.le_floor.mpr (by exact_mod_cast hx0)
  have hfln : ⌊(1 - confidence) * ((sortAsc (varReturns navs)).length : ℚ)⌋ <
      ((sortAsc (varReturns navs)).length : ℤ) := by
    rw [Int.floor_lt]
    push_cast
    have hl : (0 : ℚ) < ((sortAsc (varReturns navs)).length : ℚ) := by
      have : 0 < (sortAsc (varReturns navs)).length := by omega
      exact_mod_cast this
    nlinarith
  have hidxlt : (⌊(1 - confidence) * ((sortAsc (varReturns navs)).length : ℚ)⌋).toNat <
      (sortAsc (varReturns navs)).length := by omega
  have hsorted : (sortAsc (varReturns navs)).Sorted (· ≤ ·) :=
    List.sorted_insertionSort _ (varReturns navs)
  simp only [calcVaR, calcCVaR]
  rw [if_neg (by omega), if_neg (by omega)]
  set sorted := sortAsc (varReturns navs) with hsdef
  set idx := (⌊(1 - confidence) * ((sorted.length : ℕ) : ℚ)⌋).toNat with hidef
  by_cases h0 : idx = 0
  · rw [if_pos h0, h0]
  · rw [if_neg h0]
    have hpos : 0 < idx := Nat.pos_of_ne_zero h0
    have htl : (sorted.take idx).length = idx := by
      rw [List.length_take]
      omega
    have hb : sorted.getD idx 0 = sorted[idx] := List.getD_eq_getElem sorted 0 hidxlt
    have hmem : ∀ z ∈ sorted.take idx, z ≤ sorted[idx] := by
      intro z hz
      obtain ⟨j, hj, rfl⟩ := List.mem_iff_getElem.mp hz
      rw [List.getElem_take]
      have hjlt : j < idx := by
        rw [htl] at hj
        exact hj
      exact List.pairwise_iff_getElem.mp hsorted j idx _ hidxlt hjlt
    have hsum : (sorted.take idx).sum ≤ (sorted.take idx).length • sorted[idx] :=
      List.sum_le_card_nsmul _ _ hmem
    rw [htl, nsmul_eq_mul] at hsum
    rw [hb, htl]
    rw [neg_div]
    have hip : (0 : ℚ) < (idx : ℚ) := by exact_mod_cast hpos
    have hdiv : (sorted.take idx).sum / (idx : ℚ) ≤ sorted[idx] := by
      rw [div_le_iff₀ hip]
      nlinarith
    linarith

/-- C10 witness: thirty nonzero daily returns at confidence 0.95. -/
theorem claim_C10_witness :
    30 ≤ (varReturns sampleNavs30).length ∧ (0 : ℚ) < 0.95 ∧ (0.95 : ℚ) < 1 ∧
    calcVaR sampleNavs30 0.95 ≤ calcCVaR sampleNavs30 0.95 := by
  have h30 : 30 ≤ (varReturns sampleNavs30).length := by
    rw [varReturns_length_of_nonzero]
    · have : sampleNavs30.length = 30 := by rfl
      omega
    · intro n hn
      simp only [sampleNavs30, List.mem_map, List.mem_range] at hn
      obtain ⟨i, _, rfl⟩ := hn
      show ((i : ℚ) + 1) ≠ 0
      exact ne_of_gt (by exact_mod_cast Nat.succ_pos i)
  exact ⟨h30, by norm_num, by norm_num,
    claim_C10 sampleNavs30 0.95 h30 (by norm_num) (by norm_num)⟩

/-- Helper: adding two finite JS numbers is finite. -/
theorem isFinite_jadd {a b : JNum} (ha : a.isFinite = true) (hb : b.isFinite = true) :
    (jadd a b).isFinite = true := by
  cases a <;> cases b <;> simp_all [jadd, JNum.isFinite]

/-- Helper: subtracting two finite JS numbers is finite. -/
theorem isFinite_jsub {a b : JNum} (ha : a.isFinite = true) (hb : b.isFinite = true) :
    (jsub a b).isFinite = true := by
  cases a <;> cases b <;> simp_all [jsub, jadd, jneg, JNum.isFinite]

/-- Helper: rounding preserves finiteness. -/
theorem isFinite_jround1 {a : JNum} (ha : a.isFinite = true) :
    (jround1 a).isFinite = true := by
  cases a <;> simp_all [jround1, JNum.isFinite]

/-- Helper: the JS max of two finite numbers is finite. -/
theorem isFinite_jmax {a b : JNum} (ha : a.isFinite = true) (hb : b.isFinite = true) :
    (jmax a b).isFinite = true := by
  cases a <;> cases b <;> simp_all [jmax, JNum.isFinite]

/-- Helper: the JS min of a finite number and anything not NaN is finite
whenever either bound clamps; here we only need both-finite and
finite-vs-infinity cases, done by case analysis. -/
theorem isFinite_jmin {a b : JNum} (ha : a.isFinite = true) (hb : b.isFinite = true) :
    (jmin a b).isFinite = true := by
  cases a <;> cases b <;> simp_all [jmin, JNum.isFinite]

/-- Helper: `scoreMorningstar` is finite whenever it is actually invoked,
i.e. on a rating that compares greater than 0 (ruling out NaN and −∞; +∞
is clamped by the `Math.min` to the max score). -/
theorem scoreMorningstar_finite (r : JNum) (maxS : ℚ) (hpos : 0 < maxS)
    (hgt : jgt r (.num 0) = true) : (scoreMorningstar r maxS).isFinite = true := by
  cases r with
  | num q => rfl
  | nan => exact absurd hgt (by simp [jgt, jlt])
  | ninf => exact absurd hgt (by simp [jgt, jlt])
  | inf =>
      simp only [scoreMorningstar, jmul]
      rw [if_pos (show 0 < maxS / 5 by positivity)]
      rfl

/-- Helper: folding `jadd` of finite scores over a detail list from a
finite accumulator stays finite. -/
theorem isFinite_foldl_jadd (l : List FundScoreDetail)
    (h : ∀ x ∈ l, x.score.isFinite = true) :
    ∀ (acc : JNum), acc.isFinite = true →
      (l.foldl (fun s d => jadd s d.score) acc).isFinite = true := by
  induction l with
  | nil => intro acc ha; exact ha
  | cons x t ih =>
      intro acc ha
      exact ih (fun z hz => h z (List.mem_cons_of_mem x hz))
        (jadd acc x.score) (isFinite_jadd ha (h x (List.mem_cons_self x t)))


/-- Helper: every per-item score and the tier score of `scoreFundByTier`
are finite. -/
theorem scoreFundByTier_finite (data : FundData) (tier : RiskTier) :
    (scoreFundByTier data tier).tierDetails.all (fun det => det.score.isFinite) = true ∧
    (scoreFundByTier data tier).tierScore.isFinite = true := by
  have hall : (scoreFundByTier data tier).tierDetails.all
      (fun det => det.score.isFinite) = true := by
    simp only [scoreFundByTier, List.map_append, List.all_append, List.all_map,
      List.all_cons, List.all_nil, Function.comp_apply, Bool.and_eq_true]
    repeat' apply And.intro
    all_goals
      first
        | rfl
        | trivial
        | (by_cases hm : jgt data.meta.morningstarRating (.num 0) = true
           · simp only [hm, if_true, List.map_cons, List.map_nil, List.all_cons,
               List.all_nil, Function.comp_apply, Bool.and_eq_true]
             refine ⟨?_, ?_⟩ <;>
               first
                 | rfl
                 | trivial
                 | exact isFinite_jround1 (scoreMorningstar_finite
                     data.meta.morningstarRating W_MORNINGSTAR
                     (by norm_num [W_MORNINGSTAR]) hm)
           · simp [hm])
  have hall2 := hall
  simp only [scoreFundByTier] at hall2
  refine ⟨hall, ?_⟩
  simp only [scoreFundByTier]
  exact isFinite_jmin rfl (isFinite_jround1 (isFinite_foldl_jadd _
    (List.all_eq_true.mp hall2) _ rfl))

/-- C4: robustness — for every input fund record, including ones whose
numeric fields are NaN or ±Infinity, every JS-number field of the
`scoreFund` output (overall, market, total and tier scores, and every
per-item score of both detail lists) is finite; `returnScore`,
`riskScore` and `momentumPenalty` are rational by type in this embedding
because the source computes them from `safeNum`-coerced values only. -/
theorem claim_C4 (d : FundData) :
    (scoreFund d).overallScore.isFinite = true ∧
    (scoreFund d).marketScore.isFinite = true ∧
    (scoreFund d).totalScore.isFinite = true ∧
    (scoreFund d).tierScore.isFinite = true ∧
    (scoreFund d).details.all (fun det => det.score.isFinite) = true ∧
    (scoreFund d).tierDetails.all (fun det => det.score.isFinite) = true := by
  have htier := scoreFundByTier_finite d
    (classifyRiskTier d.basic.type d.performance.riskByPeriod.all.volatility)
  have hmsv : (if jgt d.meta.morningstarRating (.num 0) = true
      then scoreMorningstar d.meta.morningstarRating W_MORNINGSTAR
      else JNum.num 0).isFinite = true := by
    by_cases hm : jgt d.meta.morningstarRating (.num 0) = true
    · rw [if_pos hm]
      exact scoreMorningstar_finite _ _ (by norm_num [W_MORNINGSTAR]) hm
    · rw [if_neg hm]
      rfl
  have hover : (scoreFund d).overallScore.isFinite = true := by
    simp only [scoreFund]
    exact isFinite_jround1 (isFinite_jadd (isFinite_jadd (isFinite_jadd
      (isFinite_jround1 hmsv) rfl) rfl) rfl)
  have hmarket : (scoreFund d).marketScore.isFinite = true := by
    simp only [scoreFund]
    exact isFinite_jround1 (isFinite_jmax rfl (isFinite_jsub (isFinite_jround1
      (isFinite_jadd (isFinite_jadd rfl rfl) hover)) rfl))
  have hdetails : (scoreFund d).details.all (fun det => det.score.isFinite) = true := by
    simp only [scoreFund, List.map_append, List.all_append, List.all_map,
      List.all_cons, List.all_nil, Function.comp_apply, Bool.and_eq_true]
    repeat' apply And.intro
    all_goals
      first
        | rfl
        | trivial
        | (by_cases hm : jgt d.meta.morningstarRating (.num 0) = true
           · simp only [hm, if_true, List.map_cons, List.map_nil, List.all_cons,
               List.all_nil, Function.comp_apply, Bool.and_eq_true]
             refine ⟨?_, ?_⟩ <;>
               first
                 | rfl
                 | trivial
                 | exact isFinite_jround1 (scoreMorningstar_finite
                     d.meta.morningstarRating W_MORNINGSTAR
                     (by norm_num [W_MORNINGSTAR]) hm)
           · simp [hm])
  exact ⟨hover, hmarket, hmarket, htier.2, hdetails, htier.1⟩
